import Mathlib

/-! Arduino irrigator: the control loop of `Source.cpp`.

A shallow embedding of `setup()` and `loop()` of
`src/Arduino_Irrigator/Source.cpp`.  The global variables of the sketch are
the fields of `State`; what `digitalRead` and `analogRead` return during one
execution of `loop()` is an `Input`.  The sketch targets a board whose `int`
is 16 bits wide (the reason for `RESTART_FRAME`), so the two arithmetic
operations of the loop, `frame++` and `frame - pumpXLastFrameRan`, are
reduced with `wrapInt`.  `digitalWrite` mirrors `pumpXPinState` and
`Serial.print` has no effect on the variables; neither is modelled.
-/

namespace Irrigator

/-! ## Constants (Source.cpp lines 18-30) -/

/-- Arduino logic level `HIGH`. -/
def HIGH : Int := 1

/-- Arduino logic level `LOW`. -/
def LOW : Int := 0

/-- Source.cpp line 18. -/
def DEFAULT_PUMP_STATE : Int := LOW

/-- Source.cpp line 21. -/
def FRAMES_BEFORE_SHUTOFF : Int := 200

/-- Source.cpp line 24. -/
def FRAMES_BEFORE_START_ALLOWED : Int := 200 + FRAMES_BEFORE_SHUTOFF

/-- Source.cpp line 27. -/
def THRESHOLD_SATURATION : Int := 432

/-- Source.cpp line 30. -/
def RESTART_FRAME : Int := 32000

/-- Value of a 16-bit two's complement `int` holding the mathematical result `x`. -/
def wrapInt (x : Int) : Int := (x + 32768) % 65536 - 32768

/-- The C++ operator `!` on an `int`, with the `bool` result converted back to `int`. -/
def lnot (x : Int) : Int := if x = 0 then 1 else 0

/-! ## Data model (Source.cpp lines 33-53) -/

/-- The global variables of the sketch. -/
structure State where
  systemState : Int
  pumpOneState : Int
  pumpTwoState : Int
  sensorOneValue : Int
  sensorTwoValue : Int
  currentSystemButtonState : Int
  currentPumpOneButtonState : Int
  currentPumpTwoButtonState : Int
  lastSystemButtonState : Int
  lastPumpOneButtonState : Int
  lastPumpTwoButtonState : Int
  frame : Int
  pumpOneLastFrameRan : Int
  pumpTwoLastFrameRan : Int
  pumpOnePinState : Int
  pumpTwoPinState : Int
  deriving DecidableEq, Repr

/-- The values read from the hardware during one execution of `loop()`:
three `digitalRead`s and two `analogRead`s. -/
structure Input where
  systemButton : Int
  pumpOneButton : Int
  pumpTwoButton : Int
  sensorOne : Int
  sensorTwo : Int
  deriving DecidableEq, Repr

/-- The state when `setup()` returns (lines 33-53 and 56-71): the initialisers of
the globals, with the three button levels sampled once.  The `last...ButtonState`
globals have no initialiser and are zero-initialised. -/
def setup (sysBtn p1Btn p2Btn : Int) : State :=
  { systemState := 0
    pumpOneState := 0
    pumpTwoState := 0
    sensorOneValue := 0
    sensorTwoValue := 0
    currentSystemButtonState := sysBtn
    currentPumpOneButtonState := p1Btn
    currentPumpTwoButtonState := p2Btn
    lastSystemButtonState := 0
    lastPumpOneButtonState := 0
    lastPumpTwoButtonState := 0
    frame := 0
    pumpOneLastFrameRan := -1
    pumpTwoLastFrameRan := -1
    pumpOnePinState := DEFAULT_PUMP_STATE
    pumpTwoPinState := DEFAULT_PUMP_STATE }

/-! ## One execution of `loop()` (Source.cpp lines 74-174) -/

/-- Lines 76-89: `frame++`, the previous button levels are saved, the buttons and
the sensors are read. -/
def readInputs (s : State) (i : Input) : State :=
  { s with
    frame := wrapInt (s.frame + 1)
    lastSystemButtonState := s.currentSystemButtonState
    lastPumpOneButtonState := s.currentPumpOneButtonState
    lastPumpTwoButtonState := s.currentPumpTwoButtonState
    currentSystemButtonState := i.systemButton
    currentPumpOneButtonState := i.pumpOneButton
    currentPumpTwoButtonState := i.pumpTwoButton
    sensorOneValue := i.sensorOne
    sensorTwoValue := i.sensorTwo }

/-- Lines 91-99: the system button. -/
def systemButtonEdge (s : State) : State :=
  if s.lastSystemButtonState = HIGH ∧ s.currentSystemButtonState = LOW then
    { s with systemState := lnot s.systemState }
  else s

/-- Lines 102-105: the pump-one button. -/
def pumpOneButtonEdge (s : State) : State :=
  if s.lastPumpOneButtonState = HIGH ∧ s.currentPumpOneButtonState = LOW then
    { s with pumpOneState := lnot s.pumpOneState }
  else s

/-- Lines 108-112: the pump-two button. -/
def pumpTwoButtonEdge (s : State) : State :=
  if s.lastPumpTwoButtonState = HIGH ∧ s.currentPumpTwoButtonState = LOW then
    { s with pumpTwoState := lnot s.pumpTwoState }
  else s

/-- Lines 91-112: the three edge detectors in source order. -/
def edgeDetect (s : State) : State :=
  pumpTwoButtonEdge (pumpOneButtonEdge (systemButtonEdge s))

/-- Guard of line 124. -/
def shutoffOneFires (s : State) : Prop :=
  s.pumpOnePinState = HIGH ∧
    wrapInt (s.frame - s.pumpOneLastFrameRan) > FRAMES_BEFORE_SHUTOFF

/-- Guard of line 129. -/
def shutoffTwoFires (s : State) : Prop :=
  s.pumpTwoPinState = HIGH ∧
    wrapInt (s.frame - s.pumpTwoLastFrameRan) > FRAMES_BEFORE_SHUTOFF

/-- Guards of lines 143 and 144 together. -/
def activateOneFires (s : State) : Prop :=
  (s.pumpOnePinState ≠ HIGH ∧ s.sensorOneValue > THRESHOLD_SATURATION ∧
    wrapInt (s.frame - s.pumpOneLastFrameRan) > FRAMES_BEFORE_START_ALLOWED) ∧
  s.pumpOneState ≠ 0

/-- Guards of lines 154 and 155 together. -/
def activateTwoFires (s : State) : Prop :=
  (s.pumpTwoPinState ≠ HIGH ∧ s.sensorTwoValue > THRESHOLD_SATURATION ∧
    wrapInt (s.frame - s.pumpTwoLastFrameRan) > FRAMES_BEFORE_START_ALLOWED) ∧
  s.pumpTwoState ≠ 0

instance (s : State) : Decidable (shutoffOneFires s) := by
  unfold shutoffOneFires; infer_instance

instance (s : State) : Decidable (shutoffTwoFires s) := by
  unfold shutoffTwoFires; infer_instance

instance (s : State) : Decidable (activateOneFires s) := by
  unfold activateOneFires; infer_instance

instance (s : State) : Decidable (activateTwoFires s) := by
  unfold activateTwoFires; infer_instance

/-- Lines 124-128. -/
def shutoffOne (s : State) : State :=
  if shutoffOneFires s then { s with pumpOnePinState := LOW } else s

/-- Lines 129-133. -/
def shutoffTwo (s : State) : State :=
  if shutoffTwoFires s then { s with pumpTwoPinState := LOW } else s

/-- Lines 143-152. -/
def activateOne (s : State) : State :=
  if activateOneFires s then
    { s with pumpOnePinState := HIGH, pumpOneLastFrameRan := s.frame }
  else s

/-- Lines 154-161. -/
def activateTwo (s : State) : State :=
  if activateTwoFires s then
    { s with pumpTwoPinState := HIGH, pumpTwoLastFrameRan := s.frame }
  else s

/-- Lines 115-162: the pump state machine. -/
def pumpControl (s : State) : State :=
  if s.systemState = 0 then
    { s with pumpOnePinState := LOW, pumpTwoPinState := LOW }
  else
    activateTwo (activateOne (shutoffTwo (shutoffOne s)))

/-- Lines 165-170: the counter wrap. -/
def restartFrame (s : State) : State :=
  if s.frame = RESTART_FRAME then
    { s with frame := 0, pumpOneLastFrameRan := 0, pumpTwoLastFrameRan := 0 }
  else s

/-- The state of a tick after the frame increment, the reads and the edge
processing (lines 76-112), before the pump state machine. -/
def afterEdges (s : State) (i : Input) : State :=
  edgeDetect (readInputs s i)

/-- One execution of `loop()`, one tick. -/
def loop (s : State) (i : Input) : State :=
  restartFrame (pumpControl (afterEdges s i))

/-- The state at the end of tick `n` of an execution that starts in `s` and reads
`inp k` during tick `k` (ticks are numbered from 1; `inp 0` is not read). -/
def exec (s : State) (inp : Nat → Input) : Nat → State
  | 0 => s
  | n + 1 => loop (exec s inp n) (inp (n + 1))

/-- States the sketch can be in when `setup()` has returned and `loop()` has run
some number of times, whatever the hardware reads. -/
def Reachable (s : State) : Prop :=
  ∃ (a b c : Int) (inp : Nat → Input) (n : Nat), s = exec (setup a b c) inp n

/-! ## The two pumps and the three buttons

The source repeats the same statements for pump one and pump two and for the
three buttons.  The accessors below name the variable that plays a given role
for a given pump or button, so that a property can be stated once for "pump X". -/

/-- The two pumps. -/
inductive Pump where
  | one
  | two
  deriving DecidableEq, Repr

/-- The three buttons. -/
inductive Button where
  | system
  | pumpOne
  | pumpTwo
  deriving DecidableEq, Repr

/-- The armed flag `pumpXState`. -/
def Pump.armed : Pump → State → Int
  | .one, s => s.pumpOneState
  | .two, s => s.pumpTwoState

/-- The output `pumpXPinState`. -/
def Pump.pin : Pump → State → Int
  | .one, s => s.pumpOnePinState
  | .two, s => s.pumpTwoPinState

/-- The activation frame `pumpXLastFrameRan`. -/
def Pump.lastFrameRan : Pump → State → Int
  | .one, s => s.pumpOneLastFrameRan
  | .two, s => s.pumpTwoLastFrameRan

/-- The stored reading `sensorXValue`. -/
def Pump.sensorValue : Pump → State → Int
  | .one, s => s.sensorOneValue
  | .two, s => s.sensorTwoValue

/-- The `analogRead` of sensor X during a tick. -/
def Pump.sensor : Pump → Input → Int
  | .one, i => i.sensorOne
  | .two, i => i.sensorTwo

/-- The button that arms the pump. -/
def Pump.button : Pump → Button
  | .one => .pumpOne
  | .two => .pumpTwo

/-- The flag a button toggles. -/
def Button.flag : Button → State → Int
  | .system, s => s.systemState
  | .pumpOne, s => s.pumpOneState
  | .pumpTwo, s => s.pumpTwoState

/-- The most recently sampled level `currentXButtonState`. -/
def Button.current : Button → State → Int
  | .system, s => s.currentSystemButtonState
  | .pumpOne, s => s.currentPumpOneButtonState
  | .pumpTwo, s => s.currentPumpTwoButtonState

/-- The `digitalRead` of the button during a tick. -/
def Button.read : Button → Input → Int
  | .system, i => i.systemButton
  | .pumpOne, i => i.pumpOneButton
  | .pumpTwo, i => i.pumpTwoButton

/-- The timeout-shutoff branch of pump X (line 124 or 129) is taken during the tick
that starts in `s` and reads `i`: the system is on after the edge processing and
the guard holds at the point where the source evaluates it. -/
def timeoutBranchFires : Pump → State → Input → Prop
  | .one, s, i => (afterEdges s i).systemState ≠ 0 ∧ shutoffOneFires (afterEdges s i)
  | .two, s, i =>
    (afterEdges s i).systemState ≠ 0 ∧ shutoffTwoFires (shutoffOne (afterEdges s i))

/-- The activation branch of pump X (lines 143-144 or 154-155) is taken during the
tick that starts in `s` and reads `i`. -/
def activationBranchFires : Pump → State → Input → Prop
  | .one, s, i =>
    (afterEdges s i).systemState ≠ 0 ∧
      activateOneFires (shutoffTwo (shutoffOne (afterEdges s i)))
  | .two, s, i =>
    (afterEdges s i).systemState ≠ 0 ∧
      activateTwoFires (activateOne (shutoffTwo (shutoffOne (afterEdges s i))))

/-! ## Invariant of the reachable states -/

/-- The part of the invariant that concerns one pump, given the system flag, the
counter and that pump's armed flag, pin and activation frame. -/
def PumpInv (sys frame arm pin last : Int) : Prop :=
  (arm = 0 ∨ arm = 1) ∧ -1 ≤ last ∧ last ≤ frame ∧
  (pin = LOW ∨ (pin = HIGH ∧ sys = 1 ∧ frame - last ≤ FRAMES_BEFORE_SHUTOFF))

/-- What holds of every reachable state. -/
def Inv (s : State) : Prop :=
  (s.systemState = 0 ∨ s.systemState = 1) ∧ 0 ≤ s.frame ∧ s.frame < RESTART_FRAME ∧
  ∀ p : Pump, PumpInv s.systemState s.frame (p.armed s) (p.pin s) (p.lastFrameRan s)

/-! ## Inputs of the end-to-end scenario -/

/-- Tick 1 of the scenario: the system button is pressed, the others are idle. -/
def pressSystem : Input :=
  { systemButton := LOW, pumpOneButton := HIGH, pumpTwoButton := HIGH,
    sensorOne := 0, sensorTwo := 0 }

/-- Tick 2 of the scenario: the pump-one button is pressed, the system button is
released. -/
def pressPumpOne : Input :=
  { systemButton := HIGH, pumpOneButton := LOW, pumpTwoButton := HIGH,
    sensorOne := 0, sensorTwo := 0 }

/-- From tick 3 on: all buttons released, sensor one reads 500. -/
def dryOne : Input :=
  { systemButton := HIGH, pumpOneButton := HIGH, pumpTwoButton := HIGH,
    sensorOne := 500, sensorTwo := 0 }

/-- The readings of the end-to-end scenario, by tick number. -/
def scenarioInputs (k : Nat) : Input :=
  if k = 1 then pressSystem else if k = 2 then pressPumpOne else dryOne

/-- The scenario, except that the pump-one button is pressed a second time on
tick 401 (sensor one still reads 500). -/
def disarmInputs (k : Nat) : Input :=
  if k = 401 then { dryOne with pumpOneButton := LOW } else scenarioInputs k

/-- Readings in which the system button is pressed on every odd tick and released
on every even tick; everything else as in `dryOne`. -/
def systemToggling (k : Nat) : Input :=
  if k % 2 = 1 then pressSystem else dryOne

/-- A state with the system on and pump one armed and idle, the counter at 399 and
no activation so far. -/
def armedIdle : State :=
  { setup HIGH HIGH HIGH with
    systemState := 1, pumpOneState := 1, sensorOneValue := 500, frame := 399 }

/-- A state one tick before the counter wrap, the system on and pump one running
since frame 31900. -/
def beforeWrap : State :=
  { setup HIGH HIGH HIGH with
    systemState := 1, pumpOneState := 1, sensorOneValue := 500, frame := 31999,
    pumpOnePinState := HIGH, pumpOneLastFrameRan := 31900 }

/-- Pump X goes from `LOW` to `HIGH` on loop iteration `k` (counted from 1 since
`setup()` returned) of the execution that starts in `s` and reads `inp`. -/
def turnsOnAt (p : Pump) (s : State) (inp : Nat → Input) (k : Nat) : Prop :=
  1 ≤ k ∧ p.pin (exec s inp (k - 1)) = LOW ∧ p.pin (exec s inp k) = HIGH

/-- The state has the system on and pump one armed, with the given counter, pin of
pump one and activation frame of pump one. -/
def Tracks (s : State) (frame pin last : Int) : Prop :=
  s.systemState = 1 ∧ Pump.one.armed s = 1 ∧ s.frame = frame ∧ Pump.one.pin s = pin ∧
    Pump.one.lastFrameRan s = last

/-- The state at the end of tick `k` of the end-to-end scenario: all buttons are
sampled `HIGH` in `setup()`. -/
def scenario (k : Nat) : State :=
  exec (setup HIGH HIGH HIGH) scenarioInputs k

/-! ## Exchanging the two pumps -/

/-- The state with the roles of pump one and pump two exchanged: armed flag, pin,
activation frame, stored sensor reading and button levels (current and last); the
system flag, the system button levels and the counter stay. -/
def swapPumps (s : State) : State :=
  { systemState := s.systemState
    pumpOneState := s.pumpTwoState
    pumpTwoState := s.pumpOneState
    sensorOneValue := s.sensorTwoValue
    sensorTwoValue := s.sensorOneValue
    currentSystemButtonState := s.currentSystemButtonState
    currentPumpOneButtonState := s.currentPumpTwoButtonState
    currentPumpTwoButtonState := s.currentPumpOneButtonState
    lastSystemButtonState := s.lastSystemButtonState
    lastPumpOneButtonState := s.lastPumpTwoButtonState
    lastPumpTwoButtonState := s.lastPumpOneButtonState
    frame := s.frame
    pumpOneLastFrameRan := s.pumpTwoLastFrameRan
    pumpTwoLastFrameRan := s.pumpOneLastFrameRan
    pumpOnePinState := s.pumpTwoPinState
    pumpTwoPinState := s.pumpOnePinState }

/-- The readings with the two pump buttons and the two sensors exchanged. -/
def swapInputs (i : Input) : Input :=
  { systemButton := i.systemButton
    pumpOneButton := i.pumpTwoButton
    pumpTwoButton := i.pumpOneButton
    sensorOne := i.sensorTwo
    sensorTwo := i.sensorOne }

/-! ## What one pump depends on -/

/-- The variables that the statements for pump X read or write: the system flag,
the counter, the pump's armed flag, pin and activation frame, and the last sampled
levels of the system button and of the pump's own button. -/
def Pump.view (p : Pump) (s : State) : Int × Int × Int × Int × Int × Int × Int :=
  (s.systemState, s.frame, p.armed s, p.pin s, p.lastFrameRan s,
    s.currentSystemButtonState, p.button.current s)

/-- The readings that concern pump X: the system button, the pump's own button and
the pump's sensor. -/
def Pump.reads (p : Pump) (i : Input) : Int × Int × Int :=
  (i.systemButton, p.button.read i, p.sensor i)

/-- The state in which the source evaluates the timeout guard of pump X (line 124 or
129), given the state after the edge processing. -/
def Pump.shutoffPoint : Pump → State → State
  | .one, m => m
  | .two, m => shutoffOne m

/-- The state in which the source evaluates the activation guard of pump X (line 143
or 154), given the state after the edge processing. -/
def Pump.activatePoint : Pump → State → State
  | .one, m => shutoffTwo (shutoffOne m)
  | .two, m => activateOne (shutoffTwo (shutoffOne m))

/-- The number of further ticks a running pump can stay `HIGH`, from the counter and
the activation frame at the end of a tick: `FRAMES_BEFORE_SHUTOFF` minus the frames
run so far, unless the counter wraps before that, which restarts the count. -/
def runBudget (frame last : Int) : Int :=
  if RESTART_FRAME - frame ≤ FRAMES_BEFORE_SHUTOFF - (frame - last) then
    RESTART_FRAME - frame + FRAMES_BEFORE_SHUTOFF
  else FRAMES_BEFORE_SHUTOFF - (frame - last)

/-! ## Inputs of an execution that activates pump one shortly before the wrap -/

/-- All buttons released, both sensors reading 0 (wet soil). -/
def idleWet : Input :=
  { systemButton := HIGH, pumpOneButton := HIGH, pumpTwoButton := HIGH,
    sensorOne := 0, sensorTwo := 0 }

/-- The system button is pressed on tick 1, the pump-one button on tick 2; sensor one
reads 0 up to tick 31799 and 500 from tick 31800 on. -/
def lateInputs (k : Nat) : Input :=
  if k = 1 then pressSystem else if k = 2 then pressPumpOne
  else if k < 31800 then idleWet else dryOne

/-- The state at the end of tick `k` of the execution that reads `lateInputs`, all
buttons sampled `HIGH` in `setup()`. -/
def late (k : Nat) : State :=
  exec (setup HIGH HIGH HIGH) lateInputs k

/-! ## Closed forms of the phases -/

theorem wrapInt_of_range {x : Int} (h1 : -32768 ≤ x) (h2 : x < 32768) : wrapInt x = x := by
  unfold wrapInt; omega

theorem lnot_ne (x : Int) : lnot x ≠ x := by
  unfold lnot; split <;> omega

theorem systemButtonEdge_eq (s : State) : systemButtonEdge s =
    { s with systemState :=
        if s.lastSystemButtonState = HIGH ∧ s.currentSystemButtonState = LOW then
          lnot s.systemState
        else s.systemState } := by
  unfold systemButtonEdge; split <;> rfl

theorem pumpOneButtonEdge_eq (s : State) : pumpOneButtonEdge s =
    { s with pumpOneState :=
        if s.lastPumpOneButtonState = HIGH ∧ s.currentPumpOneButtonState = LOW then
          lnot s.pumpOneState
        else s.pumpOneState } := by
  unfold pumpOneButtonEdge; split <;> rfl

theorem pumpTwoButtonEdge_eq (s : State) : pumpTwoButtonEdge s =
    { s with pumpTwoState :=
        if s.lastPumpTwoButtonState = HIGH ∧ s.currentPumpTwoButtonState = LOW then
          lnot s.pumpTwoState
        else s.pumpTwoState } := by
  unfold pumpTwoButtonEdge; split <;> rfl

theorem shutoffOne_eq (s : State) : shutoffOne s =
    { s with pumpOnePinState := if shutoffOneFires s then LOW else s.pumpOnePinState } := by
  unfold shutoffOne; split <;> rfl

theorem shutoffTwo_eq (s : State) : shutoffTwo s =
    { s with pumpTwoPinState := if shutoffTwoFires s then LOW else s.pumpTwoPinState } := by
  unfold shutoffTwo; split <;> rfl

theorem activateOne_eq (s : State) : activateOne s =
    { s with
      pumpOnePinState := if activateOneFires s then HIGH else s.pumpOnePinState
      pumpOneLastFrameRan :=
        if activateOneFires s then s.frame else s.pumpOneLastFrameRan } := by
  unfold activateOne; split <;> rfl

theorem activateTwo_eq (s : State) : activateTwo s =
    { s with
      pumpTwoPinState := if activateTwoFires s then HIGH else s.pumpTwoPinState
      pumpTwoLastFrameRan :=
        if activateTwoFires s then s.frame else s.pumpTwoLastFrameRan } := by
  unfold activateTwo; split <;> rfl

theorem restartFrame_eq (s : State) : restartFrame s =
    { s with
      frame := if s.frame = RESTART_FRAME then 0 else s.frame
      pumpOneLastFrameRan := if s.frame = RESTART_FRAME then 0 else s.pumpOneLastFrameRan
      pumpTwoLastFrameRan :=
        if s.frame = RESTART_FRAME then 0 else s.pumpTwoLastFrameRan } := by
  unfold restartFrame; split <;> rfl

/-! ### Fields after the edge processing -/

theorem afterEdges_frame (s : State) (i : Input) :
    (afterEdges s i).frame = wrapInt (s.frame + 1) := by
  simp only [afterEdges, edgeDetect, readInputs, systemButtonEdge_eq, pumpOneButtonEdge_eq,
    pumpTwoButtonEdge_eq]

theorem afterEdges_systemState (s : State) (i : Input) :
    (afterEdges s i).systemState =
      if s.currentSystemButtonState = HIGH ∧ i.systemButton = LOW then lnot s.systemState
      else s.systemState := by
  simp only [afterEdges, edgeDetect, readInputs, systemButtonEdge_eq, pumpOneButtonEdge_eq,
    pumpTwoButtonEdge_eq]

theorem afterEdges_pumpOneState (s : State) (i : Input) :
    (afterEdges s i).pumpOneState =
      if s.currentPumpOneButtonState = HIGH ∧ i.pumpOneButton = LOW then lnot s.pumpOneState
      else s.pumpOneState := by
  simp only [afterEdges, edgeDetect, readInputs, systemButtonEdge_eq, pumpOneButtonEdge_eq,
    pumpTwoButtonEdge_eq]

theorem afterEdges_pumpTwoState (s : State) (i : Input) :
    (afterEdges s i).pumpTwoState =
      if s.currentPumpTwoButtonState = HIGH ∧ i.pumpTwoButton = LOW then lnot s.pumpTwoState
      else s.pumpTwoState := by
  simp only [afterEdges, edgeDetect, readInputs, systemButtonEdge_eq, pumpOneButtonEdge_eq,
    pumpTwoButtonEdge_eq]

theorem afterEdges_pumpOnePinState (s : State) (i : Input) :
    (afterEdges s i).pumpOnePinState = s.pumpOnePinState := by
  simp only [afterEdges, edgeDetect, readInputs, systemButtonEdge_eq, pumpOneButtonEdge_eq,
    pumpTwoButtonEdge_eq]

theorem afterEdges_pumpTwoPinState (s : State) (i : Input) :
    (afterEdges s i).pumpTwoPinState = s.pumpTwoPinState := by
  simp only [afterEdges, edgeDetect, readInputs, systemButtonEdge_eq, pumpOneButtonEdge_eq,
    pumpTwoButtonEdge_eq]

theorem afterEdges_pumpOneLastFrameRan (s : State) (i : Input) :
    (afterEdges s i).pumpOneLastFrameRan = s.pumpOneLastFrameRan := by
  simp only [afterEdges, edgeDetect, readInputs, systemButtonEdge_eq, pumpOneButtonEdge_eq,
    pumpTwoButtonEdge_eq]

theorem afterEdges_pumpTwoLastFrameRan (s : State) (i : Input) :
    (afterEdges s i).pumpTwoLastFrameRan = s.pumpTwoLastFrameRan := by
  simp only [afterEdges, edgeDetect, readInputs, systemButtonEdge_eq, pumpOneButtonEdge_eq,
    pumpTwoButtonEdge_eq]

theorem afterEdges_sensorOneValue (s : State) (i : Input) :
    (afterEdges s i).sensorOneValue = i.sensorOne := by
  simp only [afterEdges, edgeDetect, readInputs, systemButtonEdge_eq, pumpOneButtonEdge_eq,
    pumpTwoButtonEdge_eq]

theorem afterEdges_sensorTwoValue (s : State) (i : Input) :
    (afterEdges s i).sensorTwoValue = i.sensorTwo := by
  simp only [afterEdges, edgeDetect, readInputs, systemButtonEdge_eq, pumpOneButtonEdge_eq,
    pumpTwoButtonEdge_eq]

theorem afterEdges_currentSystemButtonState (s : State) (i : Input) :
    (afterEdges s i).currentSystemButtonState = i.systemButton := by
  simp only [afterEdges, edgeDetect, readInputs, systemButtonEdge_eq, pumpOneButtonEdge_eq,
    pumpTwoButtonEdge_eq]

theorem afterEdges_currentPumpOneButtonState (s : State) (i : Input) :
    (afterEdges s i).currentPumpOneButtonState = i.pumpOneButton := by
  simp only [afterEdges, edgeDetect, readInputs, systemButtonEdge_eq, pumpOneButtonEdge_eq,
    pumpTwoButtonEdge_eq]

theorem afterEdges_currentPumpTwoButtonState (s : State) (i : Input) :
    (afterEdges s i).currentPumpTwoButtonState = i.pumpTwoButton := by
  simp only [afterEdges, edgeDetect, readInputs, systemButtonEdge_eq, pumpOneButtonEdge_eq,
    pumpTwoButtonEdge_eq]

theorem afterEdges_lastSystemButtonState (s : State) (i : Input) :
    (afterEdges s i).lastSystemButtonState = s.currentSystemButtonState := by
  simp only [afterEdges, edgeDetect, readInputs, systemButtonEdge_eq, pumpOneButtonEdge_eq,
    pumpTwoButtonEdge_eq]

theorem afterEdges_lastPumpOneButtonState (s : State) (i : Input) :
    (afterEdges s i).lastPumpOneButtonState = s.currentPumpOneButtonState := by
  simp only [afterEdges, edgeDetect, readInputs, systemButtonEdge_eq, pumpOneButtonEdge_eq,
    pumpTwoButtonEdge_eq]

theorem afterEdges_lastPumpTwoButtonState (s : State) (i : Input) :
    (afterEdges s i).lastPumpTwoButtonState = s.currentPumpTwoButtonState := by
  simp only [afterEdges, edgeDetect, readInputs, systemButtonEdge_eq, pumpOneButtonEdge_eq,
    pumpTwoButtonEdge_eq]

/-! ### Fields after the pump state machine -/

theorem pumpControl_systemState (m : State) :
    (pumpControl m).systemState = m.systemState := by
  unfold pumpControl
  split <;> simp only [activateTwo_eq, activateOne_eq, shutoffTwo_eq, shutoffOne_eq]

theorem pumpControl_pumpOneState (m : State) :
    (pumpControl m).pumpOneState = m.pumpOneState := by
  unfold pumpControl
  split <;> simp only [activateTwo_eq, activateOne_eq, shutoffTwo_eq, shutoffOne_eq]

theorem pumpControl_pumpTwoState (m : State) :
    (pumpControl m).pumpTwoState = m.pumpTwoState := by
  unfold pumpControl
  split <;> simp only [activateTwo_eq, activateOne_eq, shutoffTwo_eq, shutoffOne_eq]

theorem pumpControl_frame (m : State) :
    (pumpControl m).frame = m.frame := by
  unfold pumpControl
  split <;> simp only [activateTwo_eq, activateOne_eq, shutoffTwo_eq, shutoffOne_eq]

theorem pumpControl_sensorOneValue (m : State) :
    (pumpControl m).sensorOneValue = m.sensorOneValue := by
  unfold pumpControl
  split <;> simp only [activateTwo_eq, activateOne_eq, shutoffTwo_eq, shutoffOne_eq]

theorem pumpControl_sensorTwoValue (m : State) :
    (pumpControl m).sensorTwoValue = m.sensorTwoValue := by
  unfold pumpControl
  split <;> simp only [activateTwo_eq, activateOne_eq, shutoffTwo_eq, shutoffOne_eq]

theorem pumpControl_currentSystemButtonState (m : State) :
    (pumpControl m).currentSystemButtonState = m.currentSystemButtonState := by
  unfold pumpControl
  split <;> simp only [activateTwo_eq, activateOne_eq, shutoffTwo_eq, shutoffOne_eq]

theorem pumpControl_currentPumpOneButtonState (m : State) :
    (pumpControl m).currentPumpOneButtonState = m.currentPumpOneButtonState := by
  unfold pumpControl
  split <;> simp only [activateTwo_eq, activateOne_eq, shutoffTwo_eq, shutoffOne_eq]

theorem pumpControl_currentPumpTwoButtonState (m : State) :
    (pumpControl m).currentPumpTwoButtonState = m.currentPumpTwoButtonState := by
  unfold pumpControl
  split <;> simp only [activateTwo_eq, activateOne_eq, shutoffTwo_eq, shutoffOne_eq]

theorem pumpControl_lastSystemButtonState (m : State) :
    (pumpControl m).lastSystemButtonState = m.lastSystemButtonState := by
  unfold pumpControl
  split <;> simp only [activateTwo_eq, activateOne_eq, shutoffTwo_eq, shutoffOne_eq]

theorem pumpControl_lastPumpOneButtonState (m : State) :
    (pumpControl m).lastPumpOneButtonState = m.lastPumpOneButtonState := by
  unfold pumpControl
  split <;> simp only [activateTwo_eq, activateOne_eq, shutoffTwo_eq, shutoffOne_eq]

theorem pumpControl_lastPumpTwoButtonState (m : State) :
    (pumpControl m).lastPumpTwoButtonState = m.lastPumpTwoButtonState := by
  unfold pumpControl
  split <;> simp only [activateTwo_eq, activateOne_eq, shutoffTwo_eq, shutoffOne_eq]

/-- The activation guard of pump one reads only pump-one fields, which the
shutoff of pump two leaves alone. -/
theorem activateOneFires_shutoffTwo (m : State) :
    activateOneFires (shutoffTwo m) ↔ activateOneFires m := by
  simp only [activateOneFires, shutoffTwo_eq]

/-- The guards of pump two read only pump-two fields. -/
theorem shutoffTwoFires_shutoffOne (m : State) :
    shutoffTwoFires (shutoffOne m) ↔ shutoffTwoFires m := by
  simp only [shutoffTwoFires, shutoffOne_eq]

theorem activateTwoFires_pumpOne (m : State) :
    activateTwoFires (activateOne (shutoffTwo (shutoffOne m))) ↔
      activateTwoFires (shutoffTwo m) := by
  simp only [activateTwoFires, activateOne_eq, shutoffTwo_eq, shutoffOne_eq, shutoffTwoFires]

theorem pumpControl_pumpOnePinState (m : State) :
    (pumpControl m).pumpOnePinState =
      if m.systemState = 0 then LOW
      else if activateOneFires (shutoffOne m) then HIGH
      else (shutoffOne m).pumpOnePinState := by
  unfold pumpControl
  split
  · rfl
  · simp only [activateTwo_eq, activateOne_eq, activateOneFires_shutoffTwo]
    simp only [shutoffTwo_eq]

theorem pumpControl_pumpOneLastFrameRan (m : State) :
    (pumpControl m).pumpOneLastFrameRan =
      if m.systemState = 0 then m.pumpOneLastFrameRan
      else if activateOneFires (shutoffOne m) then m.frame
      else m.pumpOneLastFrameRan := by
  unfold pumpControl
  split
  · rfl
  · simp only [activateTwo_eq, activateOne_eq, activateOneFires_shutoffTwo]
    simp only [shutoffTwo_eq, shutoffOne_eq]

theorem pumpControl_pumpTwoPinState (m : State) :
    (pumpControl m).pumpTwoPinState =
      if m.systemState = 0 then LOW
      else if activateTwoFires (shutoffTwo m) then HIGH
      else (shutoffTwo m).pumpTwoPinState := by
  unfold pumpControl
  split
  · rfl
  · simp only [activateTwo_eq, activateTwoFires_pumpOne]
    simp only [activateOne_eq, shutoffTwo_eq, shutoffOne_eq, shutoffTwoFires]

theorem pumpControl_pumpTwoLastFrameRan (m : State) :
    (pumpControl m).pumpTwoLastFrameRan =
      if m.systemState = 0 then m.pumpTwoLastFrameRan
      else if activateTwoFires (shutoffTwo m) then m.frame
      else m.pumpTwoLastFrameRan := by
  unfold pumpControl
  split
  · rfl
  · simp only [activateTwo_eq, activateTwoFires_pumpOne]
    simp only [activateOne_eq, shutoffTwo_eq, shutoffOne_eq]

/-! ### Fields after a whole tick -/

theorem loop_systemState (s : State) (i : Input) :
    (loop s i).systemState = (afterEdges s i).systemState := by
  simp only [loop, restartFrame_eq, pumpControl_systemState]

theorem loop_pumpOneState (s : State) (i : Input) :
    (loop s i).pumpOneState = (afterEdges s i).pumpOneState := by
  simp only [loop, restartFrame_eq, pumpControl_pumpOneState]

theorem loop_pumpTwoState (s : State) (i : Input) :
    (loop s i).pumpTwoState = (afterEdges s i).pumpTwoState := by
  simp only [loop, restartFrame_eq, pumpControl_pumpTwoState]

theorem loop_currentSystemButtonState (s : State) (i : Input) :
    (loop s i).currentSystemButtonState = (afterEdges s i).currentSystemButtonState := by
  simp only [loop, restartFrame_eq, pumpControl_currentSystemButtonState]

theorem loop_currentPumpOneButtonState (s : State) (i : Input) :
    (loop s i).currentPumpOneButtonState = (afterEdges s i).currentPumpOneButtonState := by
  simp only [loop, restartFrame_eq, pumpControl_currentPumpOneButtonState]

theorem loop_currentPumpTwoButtonState (s : State) (i : Input) :
    (loop s i).currentPumpTwoButtonState = (afterEdges s i).currentPumpTwoButtonState := by
  simp only [loop, restartFrame_eq, pumpControl_currentPumpTwoButtonState]

theorem loop_frame (s : State) (i : Input) :
    (loop s i).frame =
      if (afterEdges s i).frame = RESTART_FRAME then 0 else (afterEdges s i).frame := by
  simp only [loop, restartFrame_eq, pumpControl_frame]

theorem loop_pumpOnePinState (s : State) (i : Input) :
    (loop s i).pumpOnePinState = (pumpControl (afterEdges s i)).pumpOnePinState := by
  simp only [loop, restartFrame_eq]

theorem loop_pumpTwoPinState (s : State) (i : Input) :
    (loop s i).pumpTwoPinState = (pumpControl (afterEdges s i)).pumpTwoPinState := by
  simp only [loop, restartFrame_eq]

theorem loop_pumpOneLastFrameRan (s : State) (i : Input) :
    (loop s i).pumpOneLastFrameRan =
      if (afterEdges s i).frame = RESTART_FRAME then 0
      else (pumpControl (afterEdges s i)).pumpOneLastFrameRan := by
  simp only [loop, restartFrame_eq, pumpControl_frame]

theorem loop_pumpTwoLastFrameRan (s : State) (i : Input) :
    (loop s i).pumpTwoLastFrameRan =
      if (afterEdges s i).frame = RESTART_FRAME then 0
      else (pumpControl (afterEdges s i)).pumpTwoLastFrameRan := by
  simp only [loop, restartFrame_eq, pumpControl_frame]

/-! ## One tick in closed form, for either pump and any button -/

theorem afterEdges_armed (p : Pump) (s : State) (i : Input) :
    p.armed (afterEdges s i) =
      if p.button.current s = HIGH ∧ p.button.read i = LOW then lnot (p.armed s)
      else p.armed s := by
  cases p
  · exact afterEdges_pumpOneState s i
  · exact afterEdges_pumpTwoState s i

theorem afterEdges_pin (p : Pump) (s : State) (i : Input) :
    p.pin (afterEdges s i) = p.pin s := by
  cases p
  · exact afterEdges_pumpOnePinState s i
  · exact afterEdges_pumpTwoPinState s i

theorem afterEdges_lastFrameRan (p : Pump) (s : State) (i : Input) :
    p.lastFrameRan (afterEdges s i) = p.lastFrameRan s := by
  cases p
  · exact afterEdges_pumpOneLastFrameRan s i
  · exact afterEdges_pumpTwoLastFrameRan s i

theorem afterEdges_sensor (p : Pump) (s : State) (i : Input) :
    p.sensorValue (afterEdges s i) = p.sensor i := by
  cases p
  · exact afterEdges_sensorOneValue s i
  · exact afterEdges_sensorTwoValue s i

theorem afterEdges_flag (b : Button) (s : State) (i : Input) :
    b.flag (afterEdges s i) =
      if b.current s = HIGH ∧ b.read i = LOW then lnot (b.flag s) else b.flag s := by
  cases b
  · exact afterEdges_systemState s i
  · exact afterEdges_pumpOneState s i
  · exact afterEdges_pumpTwoState s i

theorem loop_flag (b : Button) (s : State) (i : Input) :
    b.flag (loop s i) =
      if b.current s = HIGH ∧ b.read i = LOW then lnot (b.flag s) else b.flag s := by
  rw [← afterEdges_flag]
  cases b
  · exact loop_systemState s i
  · exact loop_pumpOneState s i
  · exact loop_pumpTwoState s i

theorem loop_current (b : Button) (s : State) (i : Input) :
    b.current (loop s i) = b.read i := by
  cases b
  · exact (loop_currentSystemButtonState s i).trans (afterEdges_currentSystemButtonState s i)
  · exact (loop_currentPumpOneButtonState s i).trans (afterEdges_currentPumpOneButtonState s i)
  · exact (loop_currentPumpTwoButtonState s i).trans (afterEdges_currentPumpTwoButtonState s i)

theorem loop_armed (p : Pump) (s : State) (i : Input) :
    p.armed (loop s i) = p.armed (afterEdges s i) := by
  cases p
  · exact loop_pumpOneState s i
  · exact loop_pumpTwoState s i

theorem loop_frame_eq (s : State) (i : Input) :
    (loop s i).frame =
      if wrapInt (s.frame + 1) = RESTART_FRAME then 0 else wrapInt (s.frame + 1) := by
  simp only [loop_frame, afterEdges_frame]

/-- The pin of pump X at the end of a tick, from the state before the tick, the
readings and the two flags after the edge processing. -/
theorem loop_pin_eq (p : Pump) (s : State) (i : Input) :
    p.pin (loop s i) =
      if (afterEdges s i).systemState = 0 then LOW
      else if ((if p.pin s = HIGH ∧
            wrapInt (wrapInt (s.frame + 1) - p.lastFrameRan s) > FRAMES_BEFORE_SHUTOFF
          then LOW else p.pin s) ≠ HIGH ∧
          p.sensor i > THRESHOLD_SATURATION ∧
          wrapInt (wrapInt (s.frame + 1) - p.lastFrameRan s) >
            FRAMES_BEFORE_START_ALLOWED) ∧
          p.armed (afterEdges s i) ≠ 0 then HIGH
      else if p.pin s = HIGH ∧
          wrapInt (wrapInt (s.frame + 1) - p.lastFrameRan s) > FRAMES_BEFORE_SHUTOFF
        then LOW else p.pin s := by
  cases p
  · simp only [Pump.pin, Pump.lastFrameRan, Pump.sensor, Pump.armed, loop_pumpOnePinState,
      pumpControl_pumpOnePinState, activateOneFires, shutoffOne_eq, shutoffOneFires,
      afterEdges_frame, afterEdges_pumpOnePinState, afterEdges_pumpOneLastFrameRan,
      afterEdges_sensorOneValue]
  · simp only [Pump.pin, Pump.lastFrameRan, Pump.sensor, Pump.armed, loop_pumpTwoPinState,
      pumpControl_pumpTwoPinState, activateTwoFires, shutoffTwo_eq, shutoffTwoFires,
      afterEdges_frame, afterEdges_pumpTwoPinState, afterEdges_pumpTwoLastFrameRan,
      afterEdges_sensorTwoValue]

/-- The activation frame of pump X at the end of a tick. -/
theorem loop_lastFrameRan_eq (p : Pump) (s : State) (i : Input) :
    p.lastFrameRan (loop s i) =
      if wrapInt (s.frame + 1) = RESTART_FRAME then 0
      else if (afterEdges s i).systemState = 0 then p.lastFrameRan s
      else if ((if p.pin s = HIGH ∧
            wrapInt (wrapInt (s.frame + 1) - p.lastFrameRan s) > FRAMES_BEFORE_SHUTOFF
          then LOW else p.pin s) ≠ HIGH ∧
          p.sensor i > THRESHOLD_SATURATION ∧
          wrapInt (wrapInt (s.frame + 1) - p.lastFrameRan s) >
            FRAMES_BEFORE_START_ALLOWED) ∧
          p.armed (afterEdges s i) ≠ 0 then wrapInt (s.frame + 1)
      else p.lastFrameRan s := by
  cases p
  · simp only [Pump.pin, Pump.lastFrameRan, Pump.sensor, Pump.armed, loop_pumpOneLastFrameRan,
      pumpControl_pumpOneLastFrameRan, activateOneFires, shutoffOne_eq, shutoffOneFires,
      afterEdges_frame, afterEdges_pumpOnePinState, afterEdges_pumpOneLastFrameRan,
      afterEdges_sensorOneValue]
  · simp only [Pump.pin, Pump.lastFrameRan, Pump.sensor, Pump.armed, loop_pumpTwoLastFrameRan,
      pumpControl_pumpTwoLastFrameRan, activateTwoFires, shutoffTwo_eq, shutoffTwoFires,
      afterEdges_frame, afterEdges_pumpTwoPinState, afterEdges_pumpTwoLastFrameRan,
      afterEdges_sensorTwoValue]

/-- The guard of the timeout branch of pump X, in terms of the state after the edge
processing. -/
theorem timeoutBranchFires_iff (p : Pump) (s : State) (i : Input) :
    timeoutBranchFires p s i ↔
      (afterEdges s i).systemState ≠ 0 ∧ p.pin s = HIGH ∧
        wrapInt (wrapInt (s.frame + 1) - p.lastFrameRan s) > FRAMES_BEFORE_SHUTOFF := by
  cases p
  · simp only [timeoutBranchFires, shutoffOneFires, Pump.pin, Pump.lastFrameRan,
      afterEdges_frame, afterEdges_pumpOnePinState, afterEdges_pumpOneLastFrameRan]
  · simp only [timeoutBranchFires, shutoffTwoFires_shutoffOne]
    simp only [shutoffTwoFires, Pump.pin, Pump.lastFrameRan, afterEdges_frame,
      afterEdges_pumpTwoPinState, afterEdges_pumpTwoLastFrameRan]

/-- The guard of the activation branch of pump X, in terms of the state after the
edge processing. -/
theorem activationBranchFires_iff (p : Pump) (s : State) (i : Input) :
    activationBranchFires p s i ↔
      (afterEdges s i).systemState ≠ 0 ∧
        ((if p.pin s = HIGH ∧
            wrapInt (wrapInt (s.frame + 1) - p.lastFrameRan s) > FRAMES_BEFORE_SHUTOFF
          then LOW else p.pin s) ≠ HIGH ∧
          p.sensor i > THRESHOLD_SATURATION ∧
          wrapInt (wrapInt (s.frame + 1) - p.lastFrameRan s) >
            FRAMES_BEFORE_START_ALLOWED) ∧
        p.armed (afterEdges s i) ≠ 0 := by
  cases p
  · simp only [activationBranchFires, activateOneFires_shutoffTwo]
    simp only [activateOneFires, shutoffOne_eq, shutoffOneFires, Pump.pin, Pump.lastFrameRan,
      Pump.sensor, Pump.armed, afterEdges_frame, afterEdges_pumpOnePinState,
      afterEdges_pumpOneLastFrameRan, afterEdges_sensorOneValue]
  · simp only [activationBranchFires, activateTwoFires_pumpOne]
    simp only [activateTwoFires, shutoffTwo_eq, shutoffTwoFires, Pump.pin, Pump.lastFrameRan,
      Pump.sensor, Pump.armed, afterEdges_frame, afterEdges_pumpTwoPinState,
      afterEdges_pumpTwoLastFrameRan, afterEdges_sensorTwoValue]

/-! ## The invariant holds of every reachable state -/

theorem lnot_cases (x : Int) : lnot x = 0 ∨ lnot x = 1 := by
  unfold lnot; split <;> simp

theorem afterEdges_systemState_cases (s : State) (i : Input)
    (h : s.systemState = 0 ∨ s.systemState = 1) :
    (afterEdges s i).systemState = 0 ∨ (afterEdges s i).systemState = 1 := by
  rw [afterEdges_systemState]; split
  · exact lnot_cases _
  · exact h

theorem afterEdges_armed_cases (p : Pump) (s : State) (i : Input)
    (h : p.armed s = 0 ∨ p.armed s = 1) :
    p.armed (afterEdges s i) = 0 ∨ p.armed (afterEdges s i) = 1 := by
  rw [afterEdges_armed]; split
  · exact lnot_cases _
  · exact h

/-- Under the invariant `frame++` does not overflow. -/
theorem Inv.wrap_frame {s : State} (h : Inv s) : wrapInt (s.frame + 1) = s.frame + 1 := by
  obtain ⟨-, h0, h1, -⟩ := h
  simp only [RESTART_FRAME] at h1
  exact wrapInt_of_range (by omega) (by omega)

/-- Under the invariant `frame - pumpXLastFrameRan` does not overflow. -/
theorem Inv.wrap_diff {s : State} (h : Inv s) (p : Pump) :
    wrapInt (s.frame + 1 - p.lastFrameRan s) = s.frame + 1 - p.lastFrameRan s := by
  obtain ⟨-, h0, h1, hp⟩ := h
  obtain ⟨-, hl0, hl1, -⟩ := hp p
  simp only [RESTART_FRAME] at h1
  exact wrapInt_of_range (by omega) (by omega)

/-- The pin of pump X after a tick that starts in a state satisfying the invariant,
with the 16-bit reductions removed. -/
theorem Inv.loop_pin {s : State} (h : Inv s) (p : Pump) (i : Input) :
    p.pin (loop s i) =
      if (afterEdges s i).systemState = 0 then LOW
      else if ((if p.pin s = HIGH ∧ s.frame + 1 - p.lastFrameRan s > FRAMES_BEFORE_SHUTOFF
          then LOW else p.pin s) ≠ HIGH ∧
          p.sensor i > THRESHOLD_SATURATION ∧
          s.frame + 1 - p.lastFrameRan s > FRAMES_BEFORE_START_ALLOWED) ∧
          p.armed (afterEdges s i) ≠ 0 then HIGH
      else if p.pin s = HIGH ∧ s.frame + 1 - p.lastFrameRan s > FRAMES_BEFORE_SHUTOFF
        then LOW else p.pin s := by
  rw [loop_pin_eq, h.wrap_frame, h.wrap_diff]

/-- The activation frame of pump X after a tick that starts in a state satisfying
the invariant, with the 16-bit reductions removed. -/
theorem Inv.loop_lastFrameRan {s : State} (h : Inv s) (p : Pump) (i : Input) :
    p.lastFrameRan (loop s i) =
      if s.frame + 1 = RESTART_FRAME then 0
      else if (afterEdges s i).systemState = 0 then p.lastFrameRan s
      else if ((if p.pin s = HIGH ∧ s.frame + 1 - p.lastFrameRan s > FRAMES_BEFORE_SHUTOFF
          then LOW else p.pin s) ≠ HIGH ∧
          p.sensor i > THRESHOLD_SATURATION ∧
          s.frame + 1 - p.lastFrameRan s > FRAMES_BEFORE_START_ALLOWED) ∧
          p.armed (afterEdges s i) ≠ 0 then s.frame + 1
      else p.lastFrameRan s := by
  rw [loop_lastFrameRan_eq, h.wrap_frame, h.wrap_diff]

theorem Inv.loop_frame_val {s : State} (h : Inv s) (i : Input) :
    (loop s i).frame = if s.frame + 1 = RESTART_FRAME then 0 else s.frame + 1 := by
  rw [loop_frame_eq, h.wrap_frame]

theorem inv_setup (a b c : Int) : Inv (setup a b c) := by
  refine ⟨Or.inl rfl, ?_, ?_, ?_⟩
  · show (0 : Int) ≤ 0
    decide
  · show (0 : Int) < RESTART_FRAME
    decide
  · intro p
    cases p <;> exact ⟨Or.inl rfl, show (-1 : Int) ≤ -1 by decide,
      show (-1 : Int) ≤ 0 by decide, Or.inl rfl⟩

theorem inv_loop {s : State} (h : Inv s) (i : Input) : Inv (loop s i) := by
  have hs := afterEdges_systemState_cases s i h.1
  refine ⟨by rw [loop_systemState]; exact hs, ?_, ?_, ?_⟩
  · rw [h.loop_frame_val]; obtain ⟨-, h0, -, -⟩ := h; split <;> omega
  · rw [h.loop_frame_val]; obtain ⟨-, -, h1, -⟩ := h
    simp only [RESTART_FRAME] at *; split <;> omega
  · intro p
    have ha := afterEdges_armed_cases p s i (h.2.2.2 p).1
    rw [loop_systemState, h.loop_frame_val, loop_armed, h.loop_pin, h.loop_lastFrameRan]
    obtain ⟨-, hf0, hf1, hp⟩ := h
    obtain ⟨-, hl0, hl1, hpin⟩ := hp p
    generalize (afterEdges s i).systemState = sys at hs ⊢
    generalize p.armed (afterEdges s i) = arm at ha ⊢
    unfold PumpInv
    simp only [RESTART_FRAME, FRAMES_BEFORE_SHUTOFF, FRAMES_BEFORE_START_ALLOWED, HIGH, LOW,
      THRESHOLD_SATURATION] at *
    refine ⟨ha, ?_, ?_, ?_⟩ <;> split_ifs <;> omega

theorem inv_exec {s : State} (h : Inv s) (inp : Nat → Input) (n : Nat) :
    Inv (exec s inp n) := by
  induction n with
  | zero => exact h
  | succ n ih => exact inv_loop ih _

theorem inv_of_reachable {s : State} (h : Reachable s) : Inv s := by
  obtain ⟨a, b, c, inp, n, rfl⟩ := h
  exact inv_exec (inv_setup a b c) inp n

theorem reachable_loop {s : State} (h : Reachable s) (i : Input) : Reachable (loop s i) := by
  obtain ⟨a, b, c, inp, n, rfl⟩ := h
  refine ⟨a, b, c, fun k => if k = n + 1 then i else inp k, n + 1, ?_⟩
  have hc : ∀ m, m ≤ n →
      exec (setup a b c) (fun k => if k = n + 1 then i else inp k) m =
        exec (setup a b c) inp m := by
    intro m hm
    induction m with
    | zero => rfl
    | succ m ih =>
      have hne : m + 1 ≠ n + 1 := by omega
      simp only [exec, if_neg hne, ih (by omega)]
  simp only [exec, if_true, hc n (le_refl n)]

theorem exec_add (s : State) (inp : Nat → Input) (m n : Nat) :
    exec s inp (m + n) = exec (exec s inp m) (fun k => inp (m + k)) n := by
  induction n with
  | zero => rfl
  | succ n ih =>
    show loop (exec s inp (m + n)) (inp (m + n + 1)) = _
    rw [ih]; rfl

theorem reachable_exec {s : State} (h : Reachable s) (inp : Nat → Input) (n : Nat) :
    Reachable (exec s inp n) := by
  induction n with
  | zero => exact h
  | succ n ih => exact reachable_loop ih _

theorem exec_succ (s : State) (inp : Nat → Input) (n : Nat) :
    exec s inp (n + 1) = loop (exec s inp n) (inp (n + 1)) := rfl

theorem exec_current (b : Button) (s : State) (inp : Nat → Input) (k : Nat) (hk : 1 ≤ k) :
    b.current (exec s inp k) = b.read (inp k) := by
  obtain ⟨m, rfl⟩ : ∃ m, k = m + 1 := ⟨k - 1, by omega⟩
  rw [exec_succ, loop_current]

/-- A flag keeps its value over ticks on which its button shows no falling edge. -/
theorem exec_flag_of_no_edge (b : Button) (s : State) (inp : Nat → Input) (n : Nat)
    (h : ∀ k, k < n → ¬ (b.current (exec s inp k) = HIGH ∧ b.read (inp (k + 1)) = LOW)) :
    ∀ k, k ≤ n → b.flag (exec s inp k) = b.flag s := by
  intro k
  induction k with
  | zero => intro _; rfl
  | succ k ih =>
    intro hk
    rw [exec_succ, loop_flag, if_neg (h k (by omega))]
    exact ih (by omega)

/-- A button held `LOW` from a `HIGH` level toggles its flag on the first tick only. -/
theorem exec_flag_of_held (b : Button) (s : State) (inp : Nat → Input) (n : Nat)
    (hhigh : b.current s = HIGH) (hlow : ∀ k, 1 ≤ k → k ≤ n → b.read (inp k) = LOW) :
    ∀ k, 1 ≤ k → k ≤ n → b.flag (exec s inp k) = lnot (b.flag s) := by
  intro k
  induction k with
  | zero => intro h; omega
  | succ k ih =>
    intro _ hk
    rw [exec_succ, loop_flag]
    rcases Nat.eq_zero_or_pos k with rfl | hpos
    · rw [if_pos ⟨hhigh, hlow 1 (le_refl 1) hk⟩]; rfl
    · have hcur : b.current (exec s inp k) = LOW := by
        rw [exec_current b s inp k hpos]; exact hlow k hpos (by omega)
      have hne : ¬ (b.current (exec s inp k) = HIGH ∧ b.read (inp (k + 1)) = LOW) := by
        rw [hcur]; intro h; exact absurd h.1 (by decide)
      rw [if_neg hne]
      exact ih hpos (by omega)

/-! ## Several ticks -/

/-- What a tick that turns pump X on tells about the state before and after it. -/
theorem Inv.turn_on {s : State} (h : Inv s) (p : Pump) (i : Input)
    (hoff : p.pin s ≠ HIGH) (hon : p.pin (loop s i) = HIGH) :
    (afterEdges s i).systemState ≠ 0 ∧ p.armed (afterEdges s i) ≠ 0 ∧
    p.sensor i > THRESHOLD_SATURATION ∧
    s.frame + 1 - p.lastFrameRan s > FRAMES_BEFORE_START_ALLOWED ∧
    p.lastFrameRan (loop s i) = (loop s i).frame ∧
    (s.frame + 1 ≠ RESTART_FRAME → (loop s i).frame = s.frame + 1) := by
  rw [h.loop_pin p i] at hon
  rw [h.loop_lastFrameRan p i, h.loop_frame_val i]
  clear h
  generalize (afterEdges s i).systemState = sys at *
  generalize p.armed (afterEdges s i) = arm at *
  generalize p.pin s = pin at *
  generalize p.lastFrameRan s = last at *
  generalize p.sensor i = sensor at *
  generalize s.frame = frame at *
  simp only [RESTART_FRAME, FRAMES_BEFORE_SHUTOFF, FRAMES_BEFORE_START_ALLOWED, HIGH, LOW,
    THRESHOLD_SATURATION] at hoff hon ⊢
  by_cases h0 : sys = 0
  · rw [if_pos h0] at hon; omega
  · rw [if_neg h0] at hon
    rw [if_neg h0]
    by_cases hs : pin = 1 ∧ frame + 1 - last > 200
    · exact absurd hs.1 hoff
    · rw [if_neg hs] at hon ⊢
      by_cases ha : (pin ≠ 1 ∧ sensor > 432 ∧ frame + 1 - last > 200 + 200) ∧ arm ≠ 0
      · rw [if_pos ha]
        refine ⟨h0, ha.2, ha.1.2.1, ha.1.2.2, ?_, ?_⟩
        · split <;> rfl
        · intro hne; rw [if_neg hne]
      · rw [if_neg ha] at hon
        exact absurd hon hoff

/-- The difference `frame - pumpXLastFrameRan` grows by at most one per tick. -/
theorem Inv.diff_loop_le {s : State} (h : Inv s) (p : Pump) (i : Input) :
    (loop s i).frame - p.lastFrameRan (loop s i) ≤ s.frame - p.lastFrameRan s + 1 := by
  rw [h.loop_lastFrameRan p i, h.loop_frame_val i]
  obtain ⟨-, hf0, hf1, hp⟩ := h
  obtain ⟨-, hl0, hl1, -⟩ := hp p
  simp only [RESTART_FRAME] at *
  split_ifs <;> omega

theorem exec_diff_le {s : State} (h : Inv s) (p : Pump) (inp : Nat → Input) (n : Nat) :
    (exec s inp n).frame - p.lastFrameRan (exec s inp n) ≤
      s.frame - p.lastFrameRan s + n := by
  induction n with
  | zero => simp [exec]
  | succ n ih =>
    have := (inv_exec h inp n).diff_loop_le p (inp (n + 1))
    rw [exec_succ]
    push_cast
    omega

/-- A running pump keeps running, with its activation frame, while the system stays
on, the run duration is not exceeded and the counter does not wrap. -/
theorem exec_hold {s : State} (h : Inv s) (p : Pump) (inp : Nat → Input) (n : Nat)
    (hpin : p.pin s = HIGH)
    (hd : s.frame - p.lastFrameRan s + n ≤ FRAMES_BEFORE_SHUTOFF)
    (hf : s.frame + n < RESTART_FRAME)
    (hsys : ∀ k, 1 ≤ k → k ≤ n → (exec s inp k).systemState ≠ 0) :
    ∀ k, k ≤ n → p.pin (exec s inp k) = HIGH ∧
      p.lastFrameRan (exec s inp k) = p.lastFrameRan s ∧
      (exec s inp k).frame = s.frame + k := by
  intro k
  induction k with
  | zero => intro _; exact ⟨hpin, rfl, by simp [exec]⟩
  | succ k ih =>
    intro hk
    obtain ⟨ih1, ih2, ih3⟩ := ih (by omega)
    have hi := inv_exec h inp k
    have hs := hsys (k + 1) (by omega) hk
    rw [exec_succ, loop_systemState] at hs
    rw [exec_succ, hi.loop_pin, hi.loop_lastFrameRan, hi.loop_frame_val, ih1, ih2, ih3]
    generalize (afterEdges (exec s inp k) (inp (k + 1))).systemState = sys at *
    generalize p.armed (afterEdges (exec s inp k) (inp (k + 1))) = arm at *
    simp only [RESTART_FRAME, FRAMES_BEFORE_SHUTOFF, FRAMES_BEFORE_START_ALLOWED, HIGH, LOW,
      THRESHOLD_SATURATION] at *
    push_cast
    refine ⟨?_, ?_, ?_⟩ <;> split_ifs <;> omega

/-- A pump that is off stays off, with its activation frame, while the cooldown has
not elapsed and the counter does not wrap, whatever is read. -/
theorem exec_wait {s : State} (h : Inv s) (p : Pump) (inp : Nat → Input) (n : Nat)
    (hpin : p.pin s = LOW)
    (hd : s.frame - p.lastFrameRan s + n ≤ FRAMES_BEFORE_START_ALLOWED)
    (hf : s.frame + n < RESTART_FRAME) :
    ∀ k, k ≤ n → p.pin (exec s inp k) = LOW ∧
      p.lastFrameRan (exec s inp k) = p.lastFrameRan s ∧
      (exec s inp k).frame = s.frame + k := by
  intro k
  induction k with
  | zero => intro _; exact ⟨hpin, rfl, by simp [exec]⟩
  | succ k ih =>
    intro hk
    obtain ⟨ih1, ih2, ih3⟩ := ih (by omega)
    have hi := inv_exec h inp k
    rw [exec_succ, hi.loop_pin, hi.loop_lastFrameRan, hi.loop_frame_val, ih1, ih2, ih3]
    generalize (afterEdges (exec s inp k) (inp (k + 1))).systemState = sys at *
    generalize p.armed (afterEdges (exec s inp k) (inp (k + 1))) = arm at *
    simp only [RESTART_FRAME, FRAMES_BEFORE_SHUTOFF, FRAMES_BEFORE_START_ALLOWED, HIGH, LOW,
      THRESHOLD_SATURATION] at *
    push_cast
    refine ⟨?_, ?_, ?_⟩ <;> split_ifs <;> omega

/-- The tick on which the run duration is first exceeded switches the pump off. -/
theorem Inv.timeout {s : State} (h : Inv s) (p : Pump) (i : Input)
    (hpin : p.pin s = HIGH)
    (hd : s.frame + 1 - p.lastFrameRan s > FRAMES_BEFORE_SHUTOFF) :
    p.pin (loop s i) = LOW := by
  rw [h.loop_pin]
  obtain ⟨-, hf0, hf1, hp⟩ := h
  obtain ⟨-, hl0, hl1, hpin2⟩ := hp p
  generalize (afterEdges s i).systemState = sys at *
  generalize p.armed (afterEdges s i) = arm at *
  simp only [RESTART_FRAME, FRAMES_BEFORE_SHUTOFF, FRAMES_BEFORE_START_ALLOWED, HIGH, LOW,
    THRESHOLD_SATURATION] at *
  split_ifs <;> omega

/-! ## The end-to-end scenario -/

theorem scenarioInputs_of_ge (k : Nat) (h : 3 ≤ k) : scenarioInputs k = dryOne := by
  unfold scenarioInputs
  rw [if_neg (by omega), if_neg (by omega)]

theorem inv_scenario (k : Nat) : Inv (scenario k) :=
  inv_exec (inv_setup HIGH HIGH HIGH) scenarioInputs k

theorem reachable_scenario (k : Nat) : Reachable (scenario k) :=
  ⟨HIGH, HIGH, HIGH, scenarioInputs, k, rfl⟩

theorem scenario_succ (k : Nat) (h : 2 ≤ k) : scenario (k + 1) = loop (scenario k) dryOne := by
  show loop (scenario k) (scenarioInputs (k + 1)) = _
  rw [scenarioInputs_of_ge (k + 1) (by omega)]

/-- One tick with all buttons released and sensor one reading 500, from a state
with the system on and pump one armed. -/
theorem Inv.loop_dryOne {s : State} (h : Inv s) (h1 : s.systemState = 1)
    (h2 : s.pumpOneState = 1) (hf : s.frame + 1 < RESTART_FRAME) :
    (loop s dryOne).systemState = 1 ∧ (loop s dryOne).pumpOneState = 1 ∧
    (loop s dryOne).frame = s.frame + 1 ∧
    (loop s dryOne).pumpOnePinState =
      (if s.pumpOnePinState = HIGH then
        (if s.frame + 1 - s.pumpOneLastFrameRan > FRAMES_BEFORE_SHUTOFF then LOW else HIGH)
      else if s.frame + 1 - s.pumpOneLastFrameRan > FRAMES_BEFORE_START_ALLOWED then HIGH
      else LOW) ∧
    (loop s dryOne).pumpOneLastFrameRan =
      (if s.pumpOnePinState ≠ HIGH ∧
          s.frame + 1 - s.pumpOneLastFrameRan > FRAMES_BEFORE_START_ALLOWED
        then s.frame + 1 else s.pumpOneLastFrameRan) := by
  have hs : (afterEdges s dryOne).systemState = 1 := by
    rw [afterEdges_systemState, if_neg (fun hc => absurd hc.2 (by decide)), h1]
  have ha : Pump.one.armed (afterEdges s dryOne) = 1 := by
    show (afterEdges s dryOne).pumpOneState = 1
    rw [afterEdges_pumpOneState, if_neg (fun hc => absurd hc.2 (by decide)), h2]
  have hp := h.loop_pin Pump.one dryOne
  have hl := h.loop_lastFrameRan Pump.one dryOne
  have hfr := h.loop_frame_val dryOne
  rw [hs, ha] at hp hl
  obtain ⟨-, hf0, -, hpi⟩ := h
  obtain ⟨-, hl0, hl1, hpin⟩ := hpi Pump.one
  have hsens : Pump.one.sensor dryOne = 500 := rfl
  rw [hsens] at hp hl
  simp only [Pump.pin, Pump.lastFrameRan] at hp hl hl0 hl1 hpin
  refine ⟨by rw [loop_systemState, hs], by rw [loop_pumpOneState]; exact ha, ?_, ?_, ?_⟩
  · rw [hfr, if_neg (by omega)]
  · rw [hp]
    simp only [RESTART_FRAME, FRAMES_BEFORE_SHUTOFF, FRAMES_BEFORE_START_ALLOWED, HIGH, LOW,
      THRESHOLD_SATURATION] at *
    split_ifs <;> omega
  · rw [hl]
    simp only [RESTART_FRAME, FRAMES_BEFORE_SHUTOFF, FRAMES_BEFORE_START_ALLOWED, HIGH, LOW,
      THRESHOLD_SATURATION] at *
    split_ifs <;> omega

/-- One tick of the scenario after tick 2. -/
theorem scenario_step (k : Nat) (hk : 2 ≤ k) (hub : k < 31999) (pin last : Int)
    (h : Tracks (scenario k) k pin last) :
    Tracks (scenario (k + 1)) ((k : Int) + 1)
      (if pin = HIGH then
        (if (k : Int) + 1 - last > FRAMES_BEFORE_SHUTOFF then LOW else HIGH)
      else if (k : Int) + 1 - last > FRAMES_BEFORE_START_ALLOWED then HIGH else LOW)
      (if pin ≠ HIGH ∧ (k : Int) + 1 - last > FRAMES_BEFORE_START_ALLOWED
        then (k : Int) + 1 else last) := by
  obtain ⟨i1, i2, i3, i4, i5⟩ := h
  obtain ⟨j1, j2, j3, j4, j5⟩ := (inv_scenario k).loop_dryOne i1 i2
    (by rw [i3]; simp only [RESTART_FRAME]; omega)
  rw [scenario_succ k hk]
  simp only [Pump.armed, Pump.pin, Pump.lastFrameRan] at i4 i5 ⊢
  rw [i3, i4, i5] at j4 j5
  rw [i3] at j3
  exact ⟨j1, j2, j3, j4, j5⟩

/-- Ticks 2 to 399 of the scenario: enabled, armed, pump one off and never run. -/
theorem scenario_waiting (k : Nat) (h2 : 2 ≤ k) (h399 : k ≤ 399) :
    Tracks (scenario k) k LOW (-1) := by
  induction k, h2 using Nat.le_induction with
  | base => exact ⟨by decide, by decide, by decide, by decide, by decide⟩
  | succ k hk ih =>
    have h := scenario_step k hk (by omega) LOW (-1) (ih (by omega))
    simp only [FRAMES_BEFORE_SHUTOFF, FRAMES_BEFORE_START_ALLOWED, HIGH, LOW] at h ⊢
    rw [if_neg (by decide), if_neg (by omega), if_neg (by omega)] at h
    push_cast
    exact h

/-- Tick 400 of the scenario: pump one is switched on. -/
theorem scenario_400 : Tracks (scenario 400) 400 HIGH 400 := by
  have h := scenario_step 399 (by decide) (by decide) LOW (-1)
    (scenario_waiting 399 (by decide) (by decide))
  exact h

/-- Ticks 400 to 600 of the scenario: pump one runs. -/
theorem scenario_running (k : Nat) (h400 : 400 ≤ k) (h600 : k ≤ 600) :
    Tracks (scenario k) k HIGH 400 := by
  induction k, h400 using Nat.le_induction with
  | base => exact scenario_400
  | succ k hk ih =>
    have h := scenario_step k (by omega) (by omega) HIGH 400 (ih (by omega))
    simp only [FRAMES_BEFORE_SHUTOFF, FRAMES_BEFORE_START_ALLOWED, HIGH, LOW] at h ⊢
    rw [if_true, if_neg (by omega), if_neg (fun hc => hc.1 rfl)] at h
    push_cast
    exact h

/-- Tick 601 of the scenario: pump one is switched off. -/
theorem scenario_601 : Tracks (scenario 601) 601 LOW 400 := by
  have h := scenario_step 600 (by decide) (by decide) HIGH 400
    (scenario_running 600 (by decide) (by decide))
  exact h

/-- Ticks 601 to 800 of the scenario: pump one is off, the cooldown runs. -/
theorem scenario_cooling (k : Nat) (h601 : 601 ≤ k) (h800 : k ≤ 800) :
    Tracks (scenario k) k LOW 400 := by
  induction k, h601 using Nat.le_induction with
  | base => exact scenario_601
  | succ k hk ih =>
    have h := scenario_step k (by omega) (by omega) LOW 400 (ih (by omega))
    simp only [FRAMES_BEFORE_SHUTOFF, FRAMES_BEFORE_START_ALLOWED, HIGH, LOW] at h ⊢
    rw [if_neg (by decide), if_neg (by omega), if_neg (by omega)] at h
    push_cast
    exact h

/-- Tick 801 of the scenario: pump one is switched on again. -/
theorem scenario_801 : Tracks (scenario 801) 801 HIGH 801 := by
  have h := scenario_step 800 (by decide) (by decide) LOW 400
    (scenario_cooling 800 (by decide) (by decide))
  exact h

/-- The system flag is not changed by a tick that reads `dryOne`. -/
theorem afterEdges_systemState_dryOne (s : State) :
    (afterEdges s dryOne).systemState = s.systemState := by
  rw [afterEdges_systemState, if_neg (fun hc => absurd hc.2 (by decide))]

/-- In the scenario the system is on from tick 1. -/
theorem scenario_systemState (k : Nat) (h : 2 ≤ k) : (scenario k).systemState = 1 := by
  induction k, h using Nat.le_induction with
  | base => decide
  | succ k hk ih =>
    rw [scenario_succ k hk, loop_systemState, afterEdges_systemState_dryOne, ih]

theorem constant_dryOne_eq (k m : Nat) (hk : 3 ≤ k) :
    exec (scenario k) (fun _ => dryOne) m = scenario (k + m) := by
  induction m with
  | zero => rfl
  | succ m ih =>
    rw [exec_succ, ih]
    exact (scenario_succ (k + m) (by omega)).symm

theorem exec_congr (s : State) (inp inp2 : Nat → Input) (n : Nat)
    (h : ∀ k, 1 ≤ k → k ≤ n → inp k = inp2 k) : exec s inp n = exec s inp2 n := by
  induction n with
  | zero => rfl
  | succ n ih =>
    rw [exec_succ, exec_succ, ih (fun k h1 h2 => h k h1 (by omega)),
      h (n + 1) (by omega) (le_refl _)]

/-- The state after tick 401 when the pump-one button is pressed on that tick, in
terms of the scenario. -/
theorem exec_disarmInputs_401 :
    exec (setup HIGH HIGH HIGH) disarmInputs 401 =
      loop (scenario 400) { dryOne with pumpOneButton := LOW } := by
  have h : exec (setup HIGH HIGH HIGH) disarmInputs 400 = scenario 400 := by
    apply exec_congr
    intro k _ hk
    unfold disarmInputs
    rw [if_neg (by omega)]
  rw [exec_succ, h]
  rfl

/-! ## An activation shortly before the counter wrap -/

/-- One tick with the system button and the pump-one button released, from a state
with the system on and pump one armed. -/
theorem Inv.loop_released {s : State} (h : Inv s) (i : Input)
    (hb1 : i.systemButton = HIGH) (hb2 : i.pumpOneButton = HIGH)
    (h1 : s.systemState = 1) (h2 : Pump.one.armed s = 1) :
    (loop s i).systemState = 1 ∧ Pump.one.armed (loop s i) = 1 ∧
    (loop s i).frame = (if s.frame + 1 = RESTART_FRAME then 0 else s.frame + 1) ∧
    Pump.one.pin (loop s i) =
      (if Pump.one.pin s = HIGH then
        (if s.frame + 1 - Pump.one.lastFrameRan s > FRAMES_BEFORE_SHUTOFF then LOW else HIGH)
      else if i.sensorOne > THRESHOLD_SATURATION ∧
          s.frame + 1 - Pump.one.lastFrameRan s > FRAMES_BEFORE_START_ALLOWED then HIGH
      else LOW) ∧
    Pump.one.lastFrameRan (loop s i) =
      (if s.frame + 1 = RESTART_FRAME then 0
      else if Pump.one.pin s ≠ HIGH ∧ i.sensorOne > THRESHOLD_SATURATION ∧
          s.frame + 1 - Pump.one.lastFrameRan s > FRAMES_BEFORE_START_ALLOWED
        then s.frame + 1 else Pump.one.lastFrameRan s) := by
  have hs : (afterEdges s i).systemState = 1 := by
    rw [afterEdges_systemState, if_neg (fun hc => absurd (hb1 ▸ hc.2) (by decide)), h1]
  have ha : Pump.one.armed (afterEdges s i) = 1 := by
    rw [afterEdges_armed]
    show (if Button.pumpOne.current s = HIGH ∧ i.pumpOneButton = LOW
      then lnot (Pump.one.armed s) else Pump.one.armed s) = 1
    rw [if_neg (fun hc => absurd (hb2 ▸ hc.2) (by decide)), h2]
  have hp := h.loop_pin Pump.one i
  have hl := h.loop_lastFrameRan Pump.one i
  have hfr := h.loop_frame_val i
  rw [hs, ha] at hp hl
  obtain ⟨-, hf0, -, hpi⟩ := h
  obtain ⟨-, hl0, hl1, hpin⟩ := hpi Pump.one
  have hsens : Pump.one.sensor i = i.sensorOne := rfl
  rw [hsens] at hp hl
  refine ⟨by rw [loop_systemState, hs], by rw [loop_armed]; exact ha, hfr, ?_, ?_⟩
  · rw [hp]
    generalize Pump.one.pin s = pin at *
    generalize Pump.one.lastFrameRan s = last at *
    simp only [RESTART_FRAME, FRAMES_BEFORE_SHUTOFF, FRAMES_BEFORE_START_ALLOWED, HIGH, LOW,
      THRESHOLD_SATURATION] at *
    split_ifs <;> omega
  · rw [hl]
    generalize Pump.one.pin s = pin at *
    generalize Pump.one.lastFrameRan s = last at *
    simp only [RESTART_FRAME, FRAMES_BEFORE_SHUTOFF, FRAMES_BEFORE_START_ALLOWED, HIGH, LOW,
      THRESHOLD_SATURATION] at *
    split_ifs <;> omega

theorem inv_late (k : Nat) : Inv (late k) :=
  inv_exec (inv_setup HIGH HIGH HIGH) lateInputs k

theorem reachable_late (k : Nat) : Reachable (late k) :=
  ⟨HIGH, HIGH, HIGH, lateInputs, k, rfl⟩

theorem lateInputs_wet (k : Nat) (h3 : 3 ≤ k) (h : k < 31800) : lateInputs k = idleWet := by
  unfold lateInputs
  rw [if_neg (by omega), if_neg (by omega), if_pos h]

theorem lateInputs_dry (k : Nat) (h : 31800 ≤ k) : lateInputs k = dryOne := by
  unfold lateInputs
  rw [if_neg (by omega), if_neg (by omega), if_neg (by omega)]

/-- One tick of the late execution while sensor one reads 0. -/
theorem late_step_wet (k : Nat) (hk : 2 ≤ k) (hub : k + 1 < 31800) (last : Int)
    (h : Tracks (late k) k LOW last) : Tracks (late (k + 1)) ((k : Int) + 1) LOW last := by
  obtain ⟨i1, i2, i3, i4, i5⟩ := h
  obtain ⟨j1, j2, j3, j4, j5⟩ := (inv_late k).loop_released idleWet rfl rfl i1 i2
  have hl : late (k + 1) = loop (late k) idleWet := by
    show loop (late k) (lateInputs (k + 1)) = _
    rw [lateInputs_wet (k + 1) (by omega) hub]
  rw [hl]
  rw [i3, i4, i5] at j4 j5
  rw [i3] at j3
  have hsens : ¬ (idleWet.sensorOne > THRESHOLD_SATURATION) := by decide
  simp only [RESTART_FRAME, HIGH, LOW] at j3 j4 j5 ⊢
  rw [if_neg (by omega)] at j3
  rw [if_neg (by decide), if_neg (fun hc => hsens hc.1)] at j4
  rw [if_neg (by omega), if_neg (fun hc => hsens hc.2.1)] at j5
  exact ⟨j1, j2, j3, j4, j5⟩

/-- One tick of the late execution once sensor one reads 500. -/
theorem late_step_dry (k : Nat) (hk : 31799 ≤ k) (frame pin last : Int)
    (h : Tracks (late k) frame pin last) :
    Tracks (late (k + 1)) (if frame + 1 = RESTART_FRAME then 0 else frame + 1)
      (if pin = HIGH then
        (if frame + 1 - last > FRAMES_BEFORE_SHUTOFF then LOW else HIGH)
      else if frame + 1 - last > FRAMES_BEFORE_START_ALLOWED then HIGH else LOW)
      (if frame + 1 = RESTART_FRAME then 0
      else if pin ≠ HIGH ∧ frame + 1 - last > FRAMES_BEFORE_START_ALLOWED
        then frame + 1 else last) := by
  obtain ⟨i1, i2, i3, i4, i5⟩ := h
  obtain ⟨j1, j2, j3, j4, j5⟩ := (inv_late k).loop_released dryOne rfl rfl i1 i2
  have hl : late (k + 1) = loop (late k) dryOne := by
    show loop (late k) (lateInputs (k + 1)) = _
    rw [lateInputs_dry (k + 1) (by omega)]
  rw [hl]
  rw [i3, i4, i5] at j4 j5
  rw [i3] at j3
  have hsens : dryOne.sensorOne > THRESHOLD_SATURATION := by decide
  simp only [hsens, true_and] at j4 j5
  exact ⟨j1, j2, j3, j4, j5⟩

/-- Ticks 2 to 31799: enabled, armed, pump one off and never run. -/
theorem late_wet (k : Nat) (h2 : 2 ≤ k) (hub : k ≤ 31799) : Tracks (late k) k LOW (-1) := by
  induction k, h2 using Nat.le_induction with
  | base => exact ⟨by decide, by decide, by decide, by decide, by decide⟩
  | succ k hk ih =>
    have h := late_step_wet k hk (by omega) (-1) (ih (by omega))
    push_cast
    exact h

/-- Tick 31800: pump one is switched on. -/
theorem late_31800 : Tracks (late 31800) 31800 HIGH 31800 :=
  late_step_dry 31799 (le_refl _) 31799 LOW (-1) (late_wet 31799 (by decide) (le_refl _))

/-- Ticks 31800 to 31999: pump one runs. -/
theorem late_before_wrap (k : Nat) (h1 : 31800 ≤ k) (h2 : k ≤ 31999) :
    Tracks (late k) k HIGH 31800 := by
  induction k, h1 using Nat.le_induction with
  | base => exact late_31800
  | succ k hk ih =>
    have h := late_step_dry k (by omega) k HIGH 31800 (ih (by omega))
    simp only [RESTART_FRAME, FRAMES_BEFORE_SHUTOFF, FRAMES_BEFORE_START_ALLOWED, HIGH, LOW]
      at h ⊢
    rw [if_neg (by omega), if_true, if_neg (by omega), if_neg (by omega),
      if_neg (fun hc => hc.1 rfl)] at h
    push_cast
    exact h

/-- Tick 32000: the counter wraps while pump one runs. -/
theorem late_32000 : Tracks (late 32000) 0 HIGH 0 :=
  late_step_dry 31999 (by decide) 31999 HIGH 31800
    (late_before_wrap 31999 (by decide) (le_refl _))

/-- Ticks 32000 to 32200: pump one keeps running after the wrap. -/
theorem late_after_wrap (k : Nat) (h2 : k ≤ 200) : Tracks (late (32000 + k)) k HIGH 0 := by
  induction k with
  | zero => exact late_32000
  | succ k ih =>
    have h := late_step_dry (32000 + k) (by omega) k HIGH 0 (ih (by omega))
    simp only [RESTART_FRAME, FRAMES_BEFORE_SHUTOFF, FRAMES_BEFORE_START_ALLOWED, HIGH, LOW]
      at h ⊢
    rw [if_neg (by omega), if_true, if_neg (by omega), if_neg (by omega),
      if_neg (fun hc => hc.1 rfl)] at h
    push_cast
    exact h

/-- Tick 32201: pump one is switched off, 401 ticks after it was switched on. -/
theorem late_32201 : Tracks (late 32201) 201 LOW 0 :=
  late_step_dry 32200 (by decide) 200 HIGH 0 (late_after_wrap 200 (le_refl _))

/-! ## The points at which the guards are evaluated -/

theorem shutoffPoint_frame (p : Pump) (m : State) : (p.shutoffPoint m).frame = m.frame := by
  cases p
  · rfl
  · simp only [Pump.shutoffPoint, shutoffOne_eq]

theorem shutoffPoint_lastFrameRan (p : Pump) (m : State) :
    p.lastFrameRan (p.shutoffPoint m) = p.lastFrameRan m := by
  cases p
  · rfl
  · simp only [Pump.shutoffPoint, Pump.lastFrameRan, shutoffOne_eq]

theorem activatePoint_frame (p : Pump) (m : State) :
    (p.activatePoint m).frame = m.frame := by
  cases p
  · simp only [Pump.activatePoint, shutoffTwo_eq, shutoffOne_eq]
  · simp only [Pump.activatePoint, activateOne_eq, shutoffTwo_eq, shutoffOne_eq]

theorem activatePoint_lastFrameRan (p : Pump) (m : State) :
    p.lastFrameRan (p.activatePoint m) = p.lastFrameRan m := by
  cases p
  · simp only [Pump.activatePoint, Pump.lastFrameRan, shutoffTwo_eq, shutoffOne_eq]
  · simp only [Pump.activatePoint, Pump.lastFrameRan, activateOne_eq, shutoffTwo_eq,
      shutoffOne_eq]

/-! ## Independence and symmetry of the two pumps -/

/-- The variables of pump X after a tick are determined by their values before the
tick and by the readings that concern pump X. -/
theorem view_loop_congr (p : Pump) (s t : State) (i j : Input)
    (hs : p.view s = p.view t) (hi : p.reads i = p.reads j) :
    p.view (loop s i) = p.view (loop t j) := by
  simp only [Pump.view, Pump.reads, Prod.mk.injEq] at hs hi
  obtain ⟨h1, h2, h3, h4, h5, h6, h7⟩ := hs
  obtain ⟨g1, g2, g3⟩ := hi
  have hsys : (afterEdges s i).systemState = (afterEdges t j).systemState := by
    rw [afterEdges_systemState, afterEdges_systemState, h1, h6, g1]
  have harm : p.armed (afterEdges s i) = p.armed (afterEdges t j) := by
    rw [afterEdges_armed, afterEdges_armed, h3, h7, g2]
  have hcur : s.currentSystemButtonState = Button.system.current s := rfl
  simp only [Pump.view, Prod.mk.injEq]
  refine ⟨?_, ?_, ?_, ?_, ?_, ?_, ?_⟩
  · rw [loop_systemState, loop_systemState, hsys]
  · rw [loop_frame_eq, loop_frame_eq, h2]
  · rw [loop_armed, loop_armed, harm]
  · rw [loop_pin_eq, loop_pin_eq, hsys, harm, h2, h4, h5, g3]
  · rw [loop_lastFrameRan_eq, loop_lastFrameRan_eq, hsys, harm, h2, h4, h5, g3]
  · exact (loop_current Button.system s i).trans (g1.trans (loop_current Button.system t j).symm)
  · rw [loop_current, loop_current, g2]

theorem view_exec_congr (p : Pump) (s t : State) (inp inp2 : Nat → Input) (n : Nat)
    (hs : p.view s = p.view t)
    (hin : ∀ k, 1 ≤ k → k ≤ n → p.reads (inp k) = p.reads (inp2 k)) :
    p.view (exec s inp n) = p.view (exec t inp2 n) := by
  induction n with
  | zero => exact hs
  | succ n ih =>
    rw [exec_succ, exec_succ]
    exact view_loop_congr p _ _ _ _ (ih (fun k h1 h2 => hin k h1 (by omega)))
      (hin (n + 1) (by omega) (le_refl _))

theorem readInputs_swapPumps (s : State) (i : Input) :
    readInputs (swapPumps s) (swapInputs i) = swapPumps (readInputs s i) := rfl

theorem edgeDetect_swapPumps (s : State) :
    edgeDetect (swapPumps s) = swapPumps (edgeDetect s) := by
  simp only [edgeDetect, systemButtonEdge_eq, pumpOneButtonEdge_eq, pumpTwoButtonEdge_eq,
    swapPumps]

theorem restartFrame_swapPumps (s : State) :
    restartFrame (swapPumps s) = swapPumps (restartFrame s) := by
  simp only [restartFrame_eq, swapPumps]

theorem pumpControl_eq (s : State) : pumpControl s =
    { s with
      pumpOnePinState := (pumpControl s).pumpOnePinState
      pumpTwoPinState := (pumpControl s).pumpTwoPinState
      pumpOneLastFrameRan := (pumpControl s).pumpOneLastFrameRan
      pumpTwoLastFrameRan := (pumpControl s).pumpTwoLastFrameRan } := by
  unfold pumpControl
  split
  · rfl
  · simp only [activateTwo_eq, activateOne_eq, shutoffTwo_eq, shutoffOne_eq]

theorem pumpControl_swapPumps (s : State) :
    pumpControl (swapPumps s) = swapPumps (pumpControl s) := by
  rw [pumpControl_eq (swapPumps s), pumpControl_eq s]
  simp only [pumpControl_pumpOnePinState, pumpControl_pumpTwoPinState,
    pumpControl_pumpOneLastFrameRan, pumpControl_pumpTwoLastFrameRan, activateOneFires,
    activateTwoFires, shutoffOne_eq, shutoffTwo_eq, shutoffOneFires, shutoffTwoFires, swapPumps]

/-! ## How long a pump can run -/

/-- While a pump is `HIGH` its run budget is between 0 and 400. -/
theorem Inv.budget_bounds {s : State} (h : Inv s) (p : Pump) (hpin : p.pin s = HIGH) :
    0 ≤ runBudget s.frame (p.lastFrameRan s) ∧
      runBudget s.frame (p.lastFrameRan s) ≤ 400 := by
  obtain ⟨-, hf0, hf1, hp⟩ := h
  obtain ⟨-, hl0, hl1, hpi⟩ := hp p
  unfold runBudget
  simp only [RESTART_FRAME, FRAMES_BEFORE_SHUTOFF, HIGH, LOW] at *
  split_ifs <;> omega

/-- A tick at whose start and end the pump is `HIGH` uses up one unit of the run
budget. -/
theorem Inv.budget_loop {s : State} (h : Inv s) (p : Pump) (i : Input)
    (h1 : p.pin s = HIGH) (h2 : p.pin (loop s i) = HIGH) :
    runBudget (loop s i).frame (p.lastFrameRan (loop s i)) + 1 ≤
      runBudget s.frame (p.lastFrameRan s) := by
  rw [h.loop_pin p i] at h2
  rw [h.loop_lastFrameRan p i, h.loop_frame_val i]
  obtain ⟨-, hf0, hf1, hp⟩ := h
  obtain ⟨-, hl0, hl1, hpi⟩ := hp p
  generalize (afterEdges s i).systemState = sys at *
  generalize p.armed (afterEdges s i) = arm at *
  generalize p.pin s = pin at *
  generalize p.lastFrameRan s = last at *
  generalize p.sensor i = sensor at *
  generalize s.frame = frame at *
  unfold runBudget
  simp only [RESTART_FRAME, FRAMES_BEFORE_SHUTOFF, FRAMES_BEFORE_START_ALLOWED, HIGH, LOW,
    THRESHOLD_SATURATION] at *
  subst h1
  by_cases hw : frame + 1 = 32000
  · rw [if_pos hw, if_pos hw]
    split_ifs at h2 ⊢ <;> omega
  · rw [if_neg hw, if_neg hw]
    split_ifs at h2 ⊢ <;> omega

/-- Over `n` ticks with the pump `HIGH` at the end of each, and at the start, the run
budget decreases by at least `n`. -/
theorem exec_budget {s : State} (h : Inv s) (p : Pump) (inp : Nat → Input) (n : Nat)
    (hall : ∀ k, k ≤ n → p.pin (exec s inp k) = HIGH) :
    runBudget (exec s inp n).frame (p.lastFrameRan (exec s inp n)) + n ≤
      runBudget s.frame (p.lastFrameRan s) := by
  induction n with
  | zero => simp [exec]
  | succ n ih =>
    have h1 := ih (fun k hk => hall k (by omega))
    have h2 := (inv_exec h inp n).budget_loop p (inp (n + 1)) (hall n (by omega))
      (hall (n + 1) (le_refl _))
    rw [exec_succ]
    push_cast
    omega

/-- No pump is `HIGH` at the end of 402 consecutive ticks. -/
theorem exec_not_high_402 {s : State} (h : Inv s) (p : Pump) (inp : Nat → Input) :
    ¬ (∀ k, k ≤ 401 → p.pin (exec s inp k) = HIGH) := by
  intro hall
  have h1 := exec_budget h p inp 401 hall
  have h2 := h.budget_bounds p (hall 0 (by omega))
  have h3 := (inv_exec h inp 401).budget_bounds p (hall 401 (le_refl _))
  push_cast at h1
  omega

/-- While the system is off at the end of each tick and the counter does not reach
`RESTART_FRAME`, the activation frames stay as they are. -/
theorem exec_lastFrameRan_of_off (p : Pump) (s : State) (inp : Nat → Input) (n : Nat)
    (hoff : ∀ k, 1 ≤ k → k ≤ n → (exec s inp k).systemState = 0)
    (hnowrap : ∀ k, k < n → (afterEdges (exec s inp k) (inp (k + 1))).frame ≠ RESTART_FRAME) :
    ∀ k, k ≤ n → p.lastFrameRan (exec s inp k) = p.lastFrameRan s := by
  intro k
  induction k with
  | zero => intro _; rfl
  | succ k ih =>
    intro hk
    have h0 := hoff (k + 1) (by omega) hk
    have hw := hnowrap k (by omega)
    rw [exec_succ, loop_systemState] at h0
    rw [afterEdges_frame] at hw
    rw [exec_succ, loop_lastFrameRan_eq, if_neg hw, if_pos h0]
    exact ih (by omega)

/-! ## The claims -/

/-- C1, forced-OFF invariant: in every execution from the initial state, at the end
of every tick (and when `setup()` returns), `systemState == 0` implies that both
pump outputs are `LOW`; in particular on the tick whose system-button falling
edge disables the system, both outputs are `LOW` at the end of that very tick. -/
theorem forced_off_invariant (a b c : Int) (inp : Nat → Input) (n : Nat) :
    ((exec (setup a b c) inp n).systemState = 0 →
      (exec (setup a b c) inp n).pumpOnePinState = LOW ∧
        (exec (setup a b c) inp n).pumpTwoPinState = LOW) ∧
    ((exec (setup a b c) inp n).systemState ≠ 0 →
      (exec (setup a b c) inp n).currentSystemButtonState = HIGH →
      (inp (n + 1)).systemButton = LOW →
      (exec (setup a b c) inp (n + 1)).systemState = 0 ∧
        (exec (setup a b c) inp (n + 1)).pumpOnePinState = LOW ∧
        (exec (setup a b c) inp (n + 1)).pumpTwoPinState = LOW) := by
  have key : ∀ s : State, Inv s → s.systemState = 0 →
      s.pumpOnePinState = LOW ∧ s.pumpTwoPinState = LOW := by
    intro s hs h0
    obtain ⟨-, -, -, hp⟩ := hs
    have h1 := (hp Pump.one).2.2.2
    have h2 := (hp Pump.two).2.2.2
    simp only [Pump.pin, h0] at h1 h2
    constructor
    · rcases h1 with h | ⟨-, h, -⟩
      · exact h
      · exact absurd h (by decide)
    · rcases h2 with h | ⟨-, h, -⟩
      · exact h
      · exact absurd h (by decide)
  have hinv := inv_exec (inv_setup a b c) inp
  refine ⟨key _ (hinv n), ?_⟩
  intro hne hcur hlow
  have hsys : (exec (setup a b c) inp (n + 1)).systemState = 0 := by
    rw [exec_succ, loop_systemState, afterEdges_systemState, if_pos ⟨hcur, hlow⟩]
    unfold lnot; rw [if_neg hne]
  exact ⟨hsys, key _ (hinv (n + 1)) hsys⟩

/-- Witness of C1: the system is switched on by a press on tick 1, the button is
released on tick 2 and pressed again on tick 3. -/
theorem forced_off_invariant_witness :
    ((exec (setup HIGH HIGH HIGH) systemToggling 2).systemState ≠ 0 ∧
      (exec (setup HIGH HIGH HIGH) systemToggling 2).currentSystemButtonState = HIGH ∧
      (systemToggling 3).systemButton = LOW) ∧
    ((exec (setup HIGH HIGH HIGH) systemToggling 3).systemState = 0 ∧
      (exec (setup HIGH HIGH HIGH) systemToggling 3).pumpOnePinState = LOW ∧
      (exec (setup HIGH HIGH HIGH) systemToggling 3).pumpTwoPinState = LOW) :=
  ⟨by decide,
    (forced_off_invariant HIGH HIGH HIGH systemToggling 2).2 (by decide) (by decide)
      (by decide)⟩

/-- C2, activation postcondition: for every state and every pump X, if after the
frame increment and the edge processing of a tick `systemState` is 1, `pumpXState`
is non-zero, `pumpXPinState` is `LOW`, the sensor X reading exceeds
`THRESHOLD_SATURATION` and `frame - pumpXLastFrameRan` exceeds
`FRAMES_BEFORE_START_ALLOWED`, then at the end of the tick `pumpXPinState` is `HIGH`
and `pumpXLastFrameRan` equals `frame`, which is the counter value of the tick, or 0
for both on the wrap tick. -/
theorem activation_postcondition (p : Pump) (s : State) (i : Input)
    (hsys : (afterEdges s i).systemState = 1)
    (harm : p.armed (afterEdges s i) ≠ 0)
    (hpin : p.pin (afterEdges s i) = LOW)
    (hsens : p.sensorValue (afterEdges s i) > THRESHOLD_SATURATION)
    (hcool : wrapInt ((afterEdges s i).frame - p.lastFrameRan (afterEdges s i)) >
      FRAMES_BEFORE_START_ALLOWED) :
    p.pin (loop s i) = HIGH ∧
    p.lastFrameRan (loop s i) = (loop s i).frame ∧
    ((afterEdges s i).frame ≠ RESTART_FRAME → (loop s i).frame = (afterEdges s i).frame) ∧
    ((afterEdges s i).frame = RESTART_FRAME → (loop s i).frame = 0) := by
  rw [afterEdges_pin] at hpin
  rw [afterEdges_sensor] at hsens
  rw [afterEdges_frame, afterEdges_lastFrameRan] at hcool
  have hne : p.pin s ≠ HIGH := by rw [hpin]; decide
  have hsys0 : ¬ (afterEdges s i).systemState = 0 := by rw [hsys]; decide
  have hshut : ¬ (p.pin s = HIGH ∧
      wrapInt (wrapInt (s.frame + 1) - p.lastFrameRan s) > FRAMES_BEFORE_SHUTOFF) :=
    fun h => hne h.1
  have hact : ((if p.pin s = HIGH ∧
        wrapInt (wrapInt (s.frame + 1) - p.lastFrameRan s) > FRAMES_BEFORE_SHUTOFF
      then LOW else p.pin s) ≠ HIGH ∧
      p.sensor i > THRESHOLD_SATURATION ∧
      wrapInt (wrapInt (s.frame + 1) - p.lastFrameRan s) > FRAMES_BEFORE_START_ALLOWED) ∧
      p.armed (afterEdges s i) ≠ 0 := by
    rw [if_neg hshut]; exact ⟨⟨hne, hsens, hcool⟩, harm⟩
  refine ⟨?_, ?_, ?_, ?_⟩
  · rw [loop_pin_eq, if_neg hsys0, if_pos hact]
  · rw [loop_lastFrameRan_eq, loop_frame_eq]
    by_cases hw : wrapInt (s.frame + 1) = RESTART_FRAME
    · rw [if_pos hw, if_pos hw]
    · rw [if_neg hw, if_neg hw, if_neg hsys0, if_pos hact]
  · intro h
    rw [afterEdges_frame] at h ⊢
    rw [loop_frame_eq, if_neg h]
  · intro h
    rw [afterEdges_frame] at h
    rw [loop_frame_eq, if_pos h]

/-- Witness of C2: pump one, system on and pump armed, counter at 399, all buttons
released, sensor one reading 500. -/
theorem activation_postcondition_witness :
    ((afterEdges armedIdle dryOne).systemState = 1 ∧
      Pump.one.armed (afterEdges armedIdle dryOne) ≠ 0 ∧
      Pump.one.pin (afterEdges armedIdle dryOne) = LOW ∧
      Pump.one.sensorValue (afterEdges armedIdle dryOne) > THRESHOLD_SATURATION ∧
      wrapInt ((afterEdges armedIdle dryOne).frame -
        Pump.one.lastFrameRan (afterEdges armedIdle dryOne)) >
          FRAMES_BEFORE_START_ALLOWED) ∧
    (Pump.one.pin (loop armedIdle dryOne) = HIGH ∧
      Pump.one.lastFrameRan (loop armedIdle dryOne) = (loop armedIdle dryOne).frame ∧
      (loop armedIdle dryOne).frame = (afterEdges armedIdle dryOne).frame) :=
  ⟨by decide,
    (activation_postcondition Pump.one armedIdle dryOne (by decide) (by decide) (by decide)
      (by decide) (by decide)).1,
    (activation_postcondition Pump.one armedIdle dryOne (by decide) (by decide) (by decide)
      (by decide) (by decide)).2.1,
    (activation_postcondition Pump.one armedIdle dryOne (by decide) (by decide) (by decide)
      (by decide) (by decide)).2.2.1 (by decide)⟩

/-- C3, timeout exactness without a wrap in between: when pump X turns on, in a
reachable state, on a tick with counter value `a` and `a + 201 <= RESTART_FRAME`,
and `systemState` is 1 at the end of each of the next 201 ticks, then whatever is
read during these ticks the pump is `HIGH` at the end of the ticks with counter
`a + 1` to `a + 200` and `LOW` at the end of the tick with counter `a + 201`. -/
theorem timeout_exactness (p : Pump) (s0 : State) (i0 : Input) (inp : Nat → Input)
    (hreach : Reachable s0)
    (hoff : p.pin s0 = LOW) (hon : p.pin (loop s0 i0) = HIGH)
    (ha : (afterEdges s0 i0).frame + 201 ≤ RESTART_FRAME)
    (hsys : ∀ k, 1 ≤ k → k ≤ 201 → (exec (loop s0 i0) inp k).systemState = 1) :
    (∀ k : Nat, 1 ≤ k → k ≤ 200 →
      p.pin (exec (loop s0 i0) inp k) = HIGH ∧
        (exec (loop s0 i0) inp k).frame = (afterEdges s0 i0).frame + k) ∧
    (afterEdges (exec (loop s0 i0) inp 200) (inp 201)).frame =
      (afterEdges s0 i0).frame + 201 ∧
    p.pin (exec (loop s0 i0) inp 201) = LOW := by
  have hinv0 := inv_of_reachable hreach
  have hinv1 := inv_loop hinv0 i0
  rw [afterEdges_frame, hinv0.wrap_frame] at ha ⊢
  have hne : p.pin s0 ≠ HIGH := by rw [hoff]; decide
  obtain ⟨-, -, -, -, hlast, hframe⟩ := hinv0.turn_on p i0 hne hon
  have hfr : (loop s0 i0).frame = s0.frame + 1 :=
    hframe (by simp only [RESTART_FRAME] at ha ⊢; omega)
  have hold := exec_hold hinv1 p inp 200 hon
    (by rw [hlast]; simp only [FRAMES_BEFORE_SHUTOFF]; omega)
    (by rw [hfr]; simp only [RESTART_FRAME] at ha ⊢; omega)
    (fun k h1 h2 => by rw [hsys k h1 (by omega)]; decide)
  have h200 := hold 200 (le_refl 200)
  have hinv200 := inv_exec hinv1 inp 200
  refine ⟨?_, ?_, ?_⟩
  · intro k _ hk
    obtain ⟨h1, -, h3⟩ := hold k hk
    exact ⟨h1, by rw [h3, hfr]⟩
  · rw [afterEdges_frame, hinv200.wrap_frame, h200.2.2, hfr]
    push_cast; omega
  · rw [exec_succ]
    apply hinv200.timeout p (inp 201) h200.1
    rw [h200.2.1, h200.2.2, hlast]
    simp only [FRAMES_BEFORE_SHUTOFF]
    push_cast; omega

/-- Witness of C3: in the scenario pump one turns on on tick 400; it is `HIGH` at
the end of tick 600 and `LOW` at the end of tick 601. -/
theorem timeout_exactness_witness :
    (Reachable (scenario 399) ∧ Pump.one.pin (scenario 399) = LOW ∧
      Pump.one.pin (loop (scenario 399) dryOne) = HIGH ∧
      (afterEdges (scenario 399) dryOne).frame + 201 ≤ RESTART_FRAME) ∧
    Pump.one.pin (exec (loop (scenario 399) dryOne) (fun _ => dryOne) 200) = HIGH ∧
    Pump.one.pin (exec (loop (scenario 399) dryOne) (fun _ => dryOne) 201) = LOW := by
  have h399 := scenario_waiting 399 (by decide) (by decide)
  have h400 := scenario_400
  rw [scenario_succ 399 (by decide)] at h400
  have hfr : (afterEdges (scenario 399) dryOne).frame + 201 ≤ RESTART_FRAME := by
    rw [afterEdges_frame, (inv_scenario 399).wrap_frame, h399.2.2.1]; decide
  have hsys : ∀ k, 1 ≤ k → k ≤ 201 →
      (exec (loop (scenario 399) dryOne) (fun _ => dryOne) k).systemState = 1 := by
    intro k _ _
    rw [← scenario_succ 399 (by decide), constant_dryOne_eq 400 k (by decide)]
    exact scenario_systemState _ (by omega)
  have h := timeout_exactness Pump.one (scenario 399) dryOne (fun _ => dryOne)
    (reachable_scenario 399) h399.2.2.2.1 h400.2.2.2.1 hfr hsys
  exact ⟨⟨reachable_scenario 399, h399.2.2.2.1, h400.2.2.2.1, hfr⟩,
    (h.1 200 (by decide) (le_refl 200)).1, h.2.2⟩

/-- C4, cooldown in elapsed ticks: in every execution from the initial state, if
pump X goes from `LOW` to `HIGH` on loop iteration `i` and again on a later
iteration `j` (iterations counted since power-on), then
`j - i >= FRAMES_BEFORE_START_ALLOWED + 1 = 401`, whatever is read in between and
whether or not the counter wraps. -/
theorem cooldown_in_elapsed_ticks (a b c : Int) (inp : Nat → Input) (p : Pump) (i j : Nat)
    (hij : i < j)
    (hi : turnsOnAt p (setup a b c) inp i) (hj : turnsOnAt p (setup a b c) inp j) :
    i + 401 ≤ j ∧ (j : Int) - i ≥ FRAMES_BEFORE_START_ALLOWED + 1 := by
  have hinv := inv_exec (inv_setup a b c) inp
  obtain ⟨hi1, hioff, hion⟩ := hi
  obtain ⟨hj1, hjoff, hjon⟩ := hj
  obtain ⟨i, rfl⟩ : ∃ m, i = m + 1 := ⟨i - 1, by omega⟩
  obtain ⟨j, rfl⟩ : ∃ m, j = m + 1 := ⟨j - 1, by omega⟩
  simp only [Nat.add_sub_cancel] at hioff hjoff
  have hine : p.pin (exec (setup a b c) inp i) ≠ HIGH := by rw [hioff]; decide
  have hjne : p.pin (exec (setup a b c) inp j) ≠ HIGH := by rw [hjoff]; decide
  rw [exec_succ] at hion hjon
  obtain ⟨-, -, -, -, hlast, -⟩ := (hinv i).turn_on p _ hine hion
  obtain ⟨-, -, -, hcool, -, -⟩ := (hinv j).turn_on p _ hjne hjon
  rw [← exec_succ] at hlast
  have hsplit : j = (i + 1) + (j - (i + 1)) := by omega
  have hgrow := exec_diff_le (hinv (i + 1)) p (fun k => inp (i + 1 + k)) (j - (i + 1))
  rw [← exec_add, ← hsplit, hlast] at hgrow
  simp only [FRAMES_BEFORE_START_ALLOWED, FRAMES_BEFORE_SHUTOFF] at hcool ⊢
  have hcast : ((j - (i + 1) : Nat) : Int) = (j : Int) - (i + 1) := by omega
  rw [hcast] at hgrow
  constructor
  · omega
  · push_cast; omega

/-- Witness of C4: in the scenario pump one turns on on iteration 400 and again on
iteration 801. -/
theorem cooldown_in_elapsed_ticks_witness :
    (turnsOnAt Pump.one (setup HIGH HIGH HIGH) scenarioInputs 400 ∧
      turnsOnAt Pump.one (setup HIGH HIGH HIGH) scenarioInputs 801) ∧
    400 + 401 ≤ 801 := by
  have h1 : turnsOnAt Pump.one (setup HIGH HIGH HIGH) scenarioInputs 400 :=
    ⟨by decide, (scenario_waiting 399 (by decide) (by decide)).2.2.2.1,
      scenario_400.2.2.2.1⟩
  have h2 : turnsOnAt Pump.one (setup HIGH HIGH HIGH) scenarioInputs 801 :=
    ⟨by decide, (scenario_cooling 800 (by decide) (by decide)).2.2.2.1,
      scenario_801.2.2.2.1⟩
  exact ⟨⟨h1, h2⟩,
    (cooldown_in_elapsed_ticks HIGH HIGH HIGH scenarioInputs Pump.one 400 801 (by decide)
      h1 h2).1⟩

/-- C5, edge detector, single step: one tick changes the flag of a button (the
system flag, or the armed flag of pump one or two) iff the previously sampled level
of that button is `HIGH` and the newly sampled level is `LOW`; in that case the new
value is the logical negation of the old one (0 becomes 1 and 1 becomes 0), on every
other transition the flag is unchanged, and the new value of a flag depends on
nothing but its old value and the two levels of its own button. -/
theorem edge_detector_single_step (b : Button) (s : State) (i : Input) :
    (b.flag (loop s i) ≠ b.flag s ↔ (b.current s = HIGH ∧ b.read i = LOW)) ∧
    (b.current s = HIGH ∧ b.read i = LOW → b.flag (loop s i) = lnot (b.flag s)) ∧
    (¬ (b.current s = HIGH ∧ b.read i = LOW) → b.flag (loop s i) = b.flag s) ∧
    lnot 0 = 1 ∧ lnot 1 = 0 ∧
    (∀ (s2 : State) (i2 : Input), b.flag s2 = b.flag s → b.current s2 = b.current s →
      b.read i2 = b.read i → b.flag (loop s2 i2) = b.flag (loop s i)) := by
  refine ⟨?_, ?_, ?_, rfl, rfl, ?_⟩
  · rw [loop_flag]
    constructor
    · intro h
      by_contra hc
      rw [if_neg hc] at h
      exact h rfl
    · intro h
      rw [if_pos h]
      exact lnot_ne _
  · intro h
    rw [loop_flag, if_pos h]
  · intro h
    rw [loop_flag, if_neg h]
  · intro s2 i2 h1 h2 h3
    rw [loop_flag, loop_flag, h1, h2, h3]

/-- Witness of C5: the system button, sampled `HIGH` in `setup()`, reads `LOW` on the
first tick. -/
theorem edge_detector_single_step_witness :
    (Button.system.current (setup HIGH HIGH HIGH) = HIGH ∧
      Button.system.read pressSystem = LOW) ∧
    Button.system.flag (loop (setup HIGH HIGH HIGH) pressSystem) =
      lnot (Button.system.flag (setup HIGH HIGH HIGH)) :=
  ⟨by decide,
    (edge_detector_single_step Button.system (setup HIGH HIGH HIGH) pressSystem).2.1
      (by decide)⟩

/-- C6, one toggle per held press: for each button and every `n`, from any state
whose last sampled level of that button is `HIGH`, if the button reads `LOW` on `n`
consecutive ticks then after each of these ticks its flag is the negation of the
value before the press, and the flag of any button that shows no `HIGH` to `LOW`
edge during these ticks is unchanged after each of them. -/
theorem one_toggle_per_held_press (b : Button) (s : State) (inp : Nat → Input) (n : Nat)
    (hhigh : b.current s = HIGH)
    (hlow : ∀ k, 1 ≤ k → k ≤ n → b.read (inp k) = LOW) :
    (∀ k, 1 ≤ k → k ≤ n → b.flag (exec s inp k) = lnot (b.flag s)) ∧
    (∀ b2 : Button,
      (∀ k, k < n → ¬ (b2.current (exec s inp k) = HIGH ∧ b2.read (inp (k + 1)) = LOW)) →
      ∀ k, k ≤ n → b2.flag (exec s inp k) = b2.flag s) :=
  ⟨exec_flag_of_held b s inp n hhigh hlow,
    fun b2 h => exec_flag_of_no_edge b2 s inp n h⟩

/-- Witness of C6: the system button is held `LOW` for three ticks after `setup()`
sampled it `HIGH`. -/
theorem one_toggle_per_held_press_witness :
    (Button.system.current (setup HIGH HIGH HIGH) = HIGH ∧
      Button.system.read pressSystem = LOW) ∧
    Button.system.flag (exec (setup HIGH HIGH HIGH) (fun _ => pressSystem) 3) =
      lnot (Button.system.flag (setup HIGH HIGH HIGH)) :=
  ⟨by decide,
    (one_toggle_per_held_press Button.system (setup HIGH HIGH HIGH) (fun _ => pressSystem) 3
      (by decide) (fun _ _ _ => rfl)).1 3 (by decide) (by decide)⟩

/-- C7, counter wrap: on the tick whose incremented `frame` equals `RESTART_FRAME`
the end-of-tick state has `frame`, `pumpOneLastFrameRan` and `pumpTwoLastFrameRan`
all 0, and the pins, `systemState` and both armed flags are as the pump state
machine left them; on the tick that follows, no pump goes from not `HIGH` to `HIGH`,
and a pump that is `HIGH` stays `HIGH` unless `systemState` is 0 on that tick. -/
theorem counter_wrap (s : State) (i : Input)
    (hwrap : (afterEdges s i).frame = RESTART_FRAME) :
    ((loop s i).frame = 0 ∧ (loop s i).pumpOneLastFrameRan = 0 ∧
      (loop s i).pumpTwoLastFrameRan = 0) ∧
    ((loop s i).pumpOnePinState = (pumpControl (afterEdges s i)).pumpOnePinState ∧
      (loop s i).pumpTwoPinState = (pumpControl (afterEdges s i)).pumpTwoPinState ∧
      (loop s i).systemState = (pumpControl (afterEdges s i)).systemState ∧
      (loop s i).pumpOneState = (pumpControl (afterEdges s i)).pumpOneState ∧
      (loop s i).pumpTwoState = (pumpControl (afterEdges s i)).pumpTwoState) ∧
    (∀ (p : Pump) (i2 : Input),
      (p.pin (loop s i) ≠ HIGH → p.pin (loop (loop s i) i2) ≠ HIGH) ∧
      (p.pin (loop s i) = HIGH → (loop (loop s i) i2).systemState ≠ 0 →
        p.pin (loop (loop s i) i2) = HIGH)) := by
  have hf : (loop s i).frame = 0 := by rw [loop_frame, if_pos hwrap]
  have hl : ∀ p : Pump, p.lastFrameRan (loop s i) = 0 := by
    intro p
    cases p
    · show (loop s i).pumpOneLastFrameRan = 0
      rw [loop_pumpOneLastFrameRan, if_pos hwrap]
    · show (loop s i).pumpTwoLastFrameRan = 0
      rw [loop_pumpTwoLastFrameRan, if_pos hwrap]
  refine ⟨⟨hf, hl Pump.one, hl Pump.two⟩, ⟨?_, ?_, ?_, ?_, ?_⟩, ?_⟩
  · exact loop_pumpOnePinState s i
  · exact loop_pumpTwoPinState s i
  · rw [loop_systemState, pumpControl_systemState]
  · rw [loop_pumpOneState, pumpControl_pumpOneState]
  · rw [loop_pumpTwoState, pumpControl_pumpTwoState]
  · intro p i2
    have hd : wrapInt (wrapInt ((loop s i).frame + 1) - p.lastFrameRan (loop s i)) = 1 := by
      rw [hf, hl p]; decide
    have h200 : ¬ ((1 : Int) > FRAMES_BEFORE_SHUTOFF) := by decide
    have h400 : ¬ ((1 : Int) > FRAMES_BEFORE_START_ALLOWED) := by decide
    constructor
    · intro hne
      rw [loop_pin_eq, hd]
      have h201 : ¬ (p.pin (loop s i) = HIGH ∧ (1 : Int) > FRAMES_BEFORE_SHUTOFF) :=
        fun h => h200 h.2
      have hact : ¬ (((if p.pin (loop s i) = HIGH ∧ (1 : Int) > FRAMES_BEFORE_SHUTOFF
          then LOW else p.pin (loop s i)) ≠ HIGH ∧
          p.sensor i2 > THRESHOLD_SATURATION ∧ (1 : Int) > FRAMES_BEFORE_START_ALLOWED) ∧
          p.armed (afterEdges (loop s i) i2) ≠ 0) := fun h => h400 h.1.2.2
      rw [if_neg hact, if_neg h201]
      by_cases hs0 : (afterEdges (loop s i) i2).systemState = 0
      · rw [if_pos hs0]; decide
      · rw [if_neg hs0]; exact hne
    · intro hhigh hsys
      rw [loop_systemState] at hsys
      rw [loop_pin_eq, hd, if_neg hsys]
      have h201 : ¬ (p.pin (loop s i) = HIGH ∧ (1 : Int) > FRAMES_BEFORE_SHUTOFF) :=
        fun h => h200 h.2
      have hact : ¬ (((if p.pin (loop s i) = HIGH ∧ (1 : Int) > FRAMES_BEFORE_SHUTOFF
          then LOW else p.pin (loop s i)) ≠ HIGH ∧
          p.sensor i2 > THRESHOLD_SATURATION ∧ (1 : Int) > FRAMES_BEFORE_START_ALLOWED) ∧
          p.armed (afterEdges (loop s i) i2) ≠ 0) := fun h => h400 h.1.2.2
      rw [if_neg hact, if_neg h201]
      exact hhigh

/-- Witness of C7: the counter stands at 31999, the system is on and pump one is
running since frame 31900. -/
theorem counter_wrap_witness :
    (afterEdges beforeWrap dryOne).frame = RESTART_FRAME ∧
    (loop beforeWrap dryOne).frame = 0 ∧ (loop beforeWrap dryOne).pumpOneLastFrameRan = 0 ∧
    (loop beforeWrap dryOne).pumpTwoLastFrameRan = 0 ∧
    Pump.one.pin (loop beforeWrap dryOne) = HIGH ∧
    Pump.one.pin (loop (loop beforeWrap dryOne) dryOne) = HIGH :=
  ⟨by decide, (counter_wrap beforeWrap dryOne (by decide)).1.1,
    (counter_wrap beforeWrap dryOne (by decide)).1.2.1,
    (counter_wrap beforeWrap dryOne (by decide)).1.2.2, by decide,
    ((counter_wrap beforeWrap dryOne (by decide)).2.2 Pump.one dryOne).2 (by decide)
      (by decide)⟩

/-- C8, no same-tick shutoff and reactivation: in every execution from the initial
state and for every pump X there is no tick on which both the timeout-shutoff branch
and the activation branch of that pump are taken; a pump that is `HIGH` at the start
of a tick and is shut off by timeout during it is `LOW` at the end of that tick. -/
theorem no_same_tick_reactivation (p : Pump) (s : State) (i : Input)
    (hreach : Reachable s) :
    ¬ (timeoutBranchFires p s i ∧ activationBranchFires p s i) ∧
    (p.pin s = HIGH → timeoutBranchFires p s i → p.pin (loop s i) = LOW) := by
  have hinv := inv_of_reachable hreach
  rw [timeoutBranchFires_iff, activationBranchFires_iff, hinv.wrap_frame, hinv.wrap_diff]
  constructor
  · rintro ⟨⟨-, hpin, hd⟩, -, ⟨-, -, hc⟩, -⟩
    obtain ⟨-, -, -, hp⟩ := hinv
    obtain ⟨-, -, -, hpi⟩ := hp p
    simp only [FRAMES_BEFORE_SHUTOFF, FRAMES_BEFORE_START_ALLOWED, HIGH, LOW] at *
    omega
  · rintro hpin ⟨-, -, hd⟩
    exact hinv.timeout p i hpin hd

/-- Witness of C8: on tick 601 of the scenario the timeout branch of pump one is
taken and the pump is `LOW` at the end of the tick. -/
theorem no_same_tick_reactivation_witness :
    (Reachable (scenario 600) ∧ Pump.one.pin (scenario 600) = HIGH ∧
      timeoutBranchFires Pump.one (scenario 600) dryOne) ∧
    Pump.one.pin (loop (scenario 600) dryOne) = LOW := by
  have h600 := scenario_running 600 (by decide) (by decide)
  have ht : timeoutBranchFires Pump.one (scenario 600) dryOne := by
    rw [timeoutBranchFires_iff, (inv_scenario 600).wrap_frame, (inv_scenario 600).wrap_diff,
      afterEdges_systemState_dryOne, h600.1, h600.2.2.1, h600.2.2.2.1, h600.2.2.2.2]
    decide
  exact ⟨⟨reachable_scenario 600, h600.2.2.2.1, ht⟩,
    (no_same_tick_reactivation Pump.one (scenario 600) dryOne (reachable_scenario 600)).2
      h600.2.2.2.1 ht⟩

/-- Counterexample to C9 as stated: in the scenario pump one turns on on tick 400;
when its button is pressed again on tick 401 the armed flag goes back to 0 while the
pin stays `HIGH`. -/
theorem output_state_invariant_counterexample :
    Reachable (exec (setup HIGH HIGH HIGH) disarmInputs 401) ∧
    Pump.one.pin (exec (setup HIGH HIGH HIGH) disarmInputs 401) = HIGH ∧
    ¬ ((exec (setup HIGH HIGH HIGH) disarmInputs 401).systemState = 1 ∧
      Pump.one.armed (exec (setup HIGH HIGH HIGH) disarmInputs 401) ≠ 0 ∧
      (exec (setup HIGH HIGH HIGH) disarmInputs 401).frame -
        Pump.one.lastFrameRan (exec (setup HIGH HIGH HIGH) disarmInputs 401) ≤
          FRAMES_BEFORE_START_ALLOWED) := by
  refine ⟨⟨HIGH, HIGH, HIGH, disarmInputs, 401, rfl⟩, ?_, ?_⟩
  · rw [exec_disarmInputs_401]
    obtain ⟨h1, -, h3, h4, h5⟩ := scenario_400
    have hsys : (afterEdges (scenario 400) { dryOne with pumpOneButton := LOW }).systemState
        = 1 := by
      rw [afterEdges_systemState, if_neg (fun hc => absurd hc.2 (by decide)), h1]
    rw [(inv_scenario 400).loop_pin, hsys, h3, h4, h5]
    decide
  · rw [exec_disarmInputs_401]
    have hcur : Button.pumpOne.current (scenario 400) = HIGH :=
      exec_current Button.pumpOne (setup HIGH HIGH HIGH) scenarioInputs 400 (by decide)
    have harm : Pump.one.armed (loop (scenario 400) { dryOne with pumpOneButton := LOW })
        = 0 := by
      rw [loop_armed, afterEdges_armed]
      show (if Button.pumpOne.current (scenario 400) = HIGH ∧ LOW = LOW
        then lnot (Pump.one.armed (scenario 400)) else Pump.one.armed (scenario 400)) = 0
      rw [hcur, scenario_400.2.1]
      decide
    rw [harm]
    intro hc
    exact hc.2.1 rfl

/-- C9 as amended: in every execution from the initial state, at the end of every
tick and for every pump X, `pumpXPinState == HIGH` implies that `systemState` is 1
and that the cooldown has not elapsed, `0 <= frame - pumpXLastFrameRan <=
FRAMES_BEFORE_START_ALLOWED`; the armed flag is non-zero at the end of the tick on
which the pump goes `HIGH`, but need not remain so while the pump runs. -/
theorem output_state_invariant_amended (p : Pump) (s : State) (hreach : Reachable s) :
    (p.pin s = HIGH → s.systemState = 1 ∧ 0 ≤ s.frame - p.lastFrameRan s ∧
      s.frame - p.lastFrameRan s ≤ FRAMES_BEFORE_START_ALLOWED) ∧
    (∀ i : Input, p.pin s ≠ HIGH → p.pin (loop s i) = HIGH → p.armed (loop s i) ≠ 0) := by
  have hinv := inv_of_reachable hreach
  constructor
  · intro hpin
    obtain ⟨-, -, -, hp⟩ := hinv
    obtain ⟨-, -, hl, hpi⟩ := hp p
    simp only [FRAMES_BEFORE_SHUTOFF, FRAMES_BEFORE_START_ALLOWED, HIGH, LOW] at *
    omega
  · intro i hoff hon
    rw [loop_armed]
    exact (hinv.turn_on p i hoff hon).2.1

/-- Witness of the amended C9: pump one at the end of tick 400 of the scenario. -/
theorem output_state_invariant_amended_witness :
    (Reachable (scenario 400) ∧ Pump.one.pin (scenario 400) = HIGH) ∧
    ((scenario 400).systemState = 1 ∧
      0 ≤ (scenario 400).frame - Pump.one.lastFrameRan (scenario 400) ∧
      (scenario 400).frame - Pump.one.lastFrameRan (scenario 400) ≤
        FRAMES_BEFORE_START_ALLOWED) :=
  ⟨⟨reachable_scenario 400, scenario_400.2.2.2.1⟩,
    (output_state_invariant_amended Pump.one (scenario 400) (reachable_scenario 400)).1
      scenario_400.2.2.2.1⟩

/-- Counterexample to C10 as stated: at the end of tick 3 of the scenario the system
is enabled, pump one is armed and sensor one reads 500, but the pump is still `LOW`
and its activation frame is still -1, because `frame - pumpOneLastFrameRan` is 4. -/
theorem end_to_end_scenario_counterexample :
    (scenario 0).systemState = 0 ∧ (scenario 1).systemState = 1 ∧
    Pump.one.armed (scenario 1) = 0 ∧ Pump.one.armed (scenario 2) = 1 ∧
    (scenario 3).systemState = 1 ∧ Pump.one.armed (scenario 3) = 1 ∧
    Pump.one.sensorValue (scenario 3) = 500 ∧ (scenario 3).frame = 3 ∧
    Pump.one.pin (scenario 3) = LOW ∧ Pump.one.lastFrameRan (scenario 3) = -1 ∧
    ¬ (Pump.one.pin (scenario 3) = HIGH ∧ Pump.one.lastFrameRan (scenario 3) = 3) := by
  decide

/-- C10 as amended: from the initial state (system off, both pumps disarmed and
`LOW`, counter 0, activation frame -1, all buttons sampled `HIGH`), with a
system-button falling edge on tick 1, a pump-one-button falling edge on tick 2 and
sensor one reading 500 from tick 3 on, pump one stays `LOW` up to tick 399, becomes
`HIGH` on tick 400 with `pumpOneLastFrameRan == 400`, is `HIGH` at the end of ticks
401 to 600, becomes `LOW` on tick 601, stays `LOW` up to tick 800 and becomes `HIGH`
again on tick 801. -/
theorem end_to_end_scenario_amended :
    ((scenario 0).systemState = 0 ∧ Pump.one.armed (scenario 0) = 0 ∧
      Pump.two.armed (scenario 0) = 0 ∧ Pump.one.pin (scenario 0) = LOW ∧
      Pump.two.pin (scenario 0) = LOW ∧ (scenario 0).frame = 0 ∧
      Pump.one.lastFrameRan (scenario 0) = -1) ∧
    ((scenario 1).systemState = 1 ∧ Pump.one.armed (scenario 2) = 1) ∧
    (∀ k : Nat, 3 ≤ k → k ≤ 399 → Pump.one.pin (scenario k) = LOW) ∧
    (Pump.one.pin (scenario 400) = HIGH ∧ Pump.one.lastFrameRan (scenario 400) = 400) ∧
    (∀ k : Nat, 401 ≤ k → k ≤ 600 → Pump.one.pin (scenario k) = HIGH) ∧
    Pump.one.pin (scenario 601) = LOW ∧
    (∀ k : Nat, 601 ≤ k → k ≤ 800 → Pump.one.pin (scenario k) = LOW) ∧
    Pump.one.pin (scenario 801) = HIGH :=
  ⟨by decide, by decide,
    fun k h1 h2 => (scenario_waiting k (by omega) h2).2.2.2.1,
    ⟨scenario_400.2.2.2.1, scenario_400.2.2.2.2⟩,
    fun k h1 h2 => (scenario_running k (by omega) h2).2.2.2.1,
    scenario_601.2.2.2.1,
    fun k h1 h2 => (scenario_cooling k h1 h2).2.2.2.1,
    scenario_801.2.2.2.1⟩

/-- Witness of the amended C10: ticks 3, 500 and 700 of the scenario. -/
theorem end_to_end_scenario_amended_witness :
    Pump.one.pin (scenario 3) = LOW ∧ Pump.one.pin (scenario 500) = HIGH ∧
    Pump.one.pin (scenario 700) = LOW :=
  ⟨end_to_end_scenario_amended.2.2.1 3 (by decide) (by decide),
    end_to_end_scenario_amended.2.2.2.2.1 500 (by decide) (by decide),
    end_to_end_scenario_amended.2.2.2.2.2.2.1 700 (by decide) (by decide)⟩


/-- C11 at its failing input: in the execution that reads `lateInputs`, pump one goes
from `LOW` to `HIGH` on loop iteration 31800 and is still `HIGH` at the end of every
iteration up to 32200, so it is not `LOW` at the end of any iteration up to
31800 + 201; it is `LOW` again only at the end of iteration 32201. -/
theorem run_duration_exceeded_across_wrap :
    turnsOnAt Pump.one (setup HIGH HIGH HIGH) lateInputs 31800 ∧
    (∀ k : Nat, 31800 ≤ k → k ≤ 32200 → Pump.one.pin (late k) = HIGH) ∧
    Pump.one.pin (late (31800 + 201)) ≠ LOW ∧
    Pump.one.pin (late 32201) = LOW := by
  have hwin : ∀ k : Nat, 31800 ≤ k → k ≤ 32200 → Pump.one.pin (late k) = HIGH := by
    intro k h1 h2
    rcases Nat.lt_or_ge k 32000 with h | h
    · exact (late_before_wrap k h1 (by omega)).2.2.2.1
    · obtain ⟨m, rfl⟩ : ∃ m, k = 32000 + m := ⟨k - 32000, by omega⟩
      exact (late_after_wrap m (by omega)).2.2.2.1
  refine ⟨⟨by decide, (late_wet 31799 (by decide) (le_refl _)).2.2.2.1,
    late_31800.2.2.2.1⟩, hwin, ?_, late_32201.2.2.2.1⟩
  rw [hwin (31800 + 201) (by decide) (by decide)]
  decide

/-- Witness of the C11 evaluation: iterations 32001 and 32200. -/
theorem run_duration_exceeded_across_wrap_witness :
    Pump.one.pin (late 32001) = HIGH ∧ Pump.one.pin (late 32200) = HIGH :=
  ⟨run_duration_exceeded_across_wrap.2.1 32001 (by decide) (by decide),
    run_duration_exceeded_across_wrap.2.1 32200 (by decide) (by decide)⟩

/-- C12, bounded counters without integer overflow: in every execution from the
initial state, at the end of every tick `0 <= frame <= 31999` and
`-1 <= pumpXLastFrameRan <= frame`; the next tick sets `frame` to
`(frame + 1) mod 32000` whatever is read, `frame++` does not overflow, and at the
points where the tick evaluates `frame - pumpXLastFrameRan` the difference lies in
`[1, 32001]`, within the 16-bit `int` range, so that the computed value is the
mathematical one. -/
theorem bounded_counters (s : State) (i : Input) (hreach : Reachable s) :
    (0 ≤ s.frame ∧ s.frame ≤ 31999) ∧
    (∀ p : Pump, -1 ≤ p.lastFrameRan s ∧ p.lastFrameRan s ≤ s.frame) ∧
    ((loop s i).frame = (s.frame + 1) % 32000 ∧
      ∀ j : Input, (loop s j).frame = (loop s i).frame) ∧
    (afterEdges s i).frame = s.frame + 1 ∧
    (∀ p : Pump,
      (1 ≤ (p.shutoffPoint (afterEdges s i)).frame -
          p.lastFrameRan (p.shutoffPoint (afterEdges s i)) ∧
        (p.shutoffPoint (afterEdges s i)).frame -
          p.lastFrameRan (p.shutoffPoint (afterEdges s i)) ≤ 32001 ∧
        wrapInt ((p.shutoffPoint (afterEdges s i)).frame -
          p.lastFrameRan (p.shutoffPoint (afterEdges s i))) =
          (p.shutoffPoint (afterEdges s i)).frame -
            p.lastFrameRan (p.shutoffPoint (afterEdges s i))) ∧
      (1 ≤ (p.activatePoint (afterEdges s i)).frame -
          p.lastFrameRan (p.activatePoint (afterEdges s i)) ∧
        (p.activatePoint (afterEdges s i)).frame -
          p.lastFrameRan (p.activatePoint (afterEdges s i)) ≤ 32001 ∧
        wrapInt ((p.activatePoint (afterEdges s i)).frame -
          p.lastFrameRan (p.activatePoint (afterEdges s i))) =
          (p.activatePoint (afterEdges s i)).frame -
            p.lastFrameRan (p.activatePoint (afterEdges s i)))) ∧
    (32001 : Int) ≤ 32767 := by
  have hinv := inv_of_reachable hreach
  have hw := hinv.wrap_frame
  have hfr : ∀ j : Input, (loop s j).frame = (s.frame + 1) % 32000 := by
    intro j
    rw [hinv.loop_frame_val j]
    obtain ⟨-, h0, h1, -⟩ := hinv
    simp only [RESTART_FRAME] at *
    split_ifs <;> omega
  have hd := hinv.wrap_diff
  obtain ⟨-, h0, h1, hp⟩ := hinv
  simp only [RESTART_FRAME] at h1
  refine ⟨⟨h0, by omega⟩, fun p => ⟨(hp p).2.1, (hp p).2.2.1⟩,
    ⟨hfr i, fun j => (hfr j).trans (hfr i).symm⟩, by rw [afterEdges_frame, hw], ?_,
    by decide⟩
  intro p
  obtain ⟨-, hl0, hl1, -⟩ := hp p
  rw [shutoffPoint_frame, shutoffPoint_lastFrameRan, activatePoint_frame,
    activatePoint_lastFrameRan, afterEdges_frame, afterEdges_lastFrameRan, hw, hd p]
  refine ⟨⟨?_, ?_, rfl⟩, ?_, ?_, rfl⟩ <;> omega

/-- Witness of C12: the state at the end of tick 600 of the scenario. -/
theorem bounded_counters_witness :
    Reachable (scenario 600) ∧
    (0 ≤ (scenario 600).frame ∧ (scenario 600).frame ≤ 31999) ∧
    (loop (scenario 600) dryOne).frame = ((scenario 600).frame + 1) % 32000 :=
  ⟨reachable_scenario 600, (bounded_counters (scenario 600) dryOne (reachable_scenario 600)).1,
    (bounded_counters (scenario 600) dryOne (reachable_scenario 600)).2.2.1.1⟩

/-- C13, activation only under all four conditions: for every state and every pump
X, if `pumpXPinState` is `LOW` at the start of a tick and `HIGH` at its end, then
after the frame increment and the edge processing of that tick `systemState` is
non-zero (and is 1 whenever the flag held 0 or 1 before the tick, the only values
the sketch assigns), `pumpXState` is non-zero, the sensor X reading is strictly
greater than 432 and `frame - pumpXLastFrameRan`, with the timestamp from before the
activation, is strictly greater than 400.  In particular a reading of at most 432, a
difference of at most 400 and an unarmed pump never turn the pump on. -/
theorem activation_only_under_all_conditions (p : Pump) (s : State) (i : Input)
    (hoff : p.pin s = LOW) :
    (p.pin (loop s i) = HIGH →
      (afterEdges s i).systemState ≠ 0 ∧
      (s.systemState = 0 ∨ s.systemState = 1 → (afterEdges s i).systemState = 1) ∧
      p.armed (afterEdges s i) ≠ 0 ∧
      p.sensorValue (afterEdges s i) > THRESHOLD_SATURATION ∧
      wrapInt ((afterEdges s i).frame - p.lastFrameRan (afterEdges s i)) >
        FRAMES_BEFORE_START_ALLOWED) ∧
    (p.sensorValue (afterEdges s i) ≤ 432 → p.pin (loop s i) ≠ HIGH) ∧
    (wrapInt ((afterEdges s i).frame - p.lastFrameRan (afterEdges s i)) ≤ 400 →
      p.pin (loop s i) ≠ HIGH) ∧
    (p.armed (afterEdges s i) = 0 → p.pin (loop s i) ≠ HIGH) := by
  have hne : p.pin s ≠ HIGH := by rw [hoff]; decide
  have hshut : ¬ (p.pin s = HIGH ∧
      wrapInt (wrapInt (s.frame + 1) - p.lastFrameRan s) > FRAMES_BEFORE_SHUTOFF) :=
    fun h => hne h.1
  have key : p.pin (loop s i) = HIGH →
      (afterEdges s i).systemState ≠ 0 ∧ p.armed (afterEdges s i) ≠ 0 ∧
      p.sensor i > THRESHOLD_SATURATION ∧
      wrapInt (wrapInt (s.frame + 1) - p.lastFrameRan s) > FRAMES_BEFORE_START_ALLOWED := by
    intro hon
    rw [loop_pin_eq, if_neg hshut] at hon
    by_cases h0 : (afterEdges s i).systemState = 0
    · rw [if_pos h0] at hon
      exact absurd hon (by decide)
    · rw [if_neg h0] at hon
      by_cases ha : (p.pin s ≠ HIGH ∧ p.sensor i > THRESHOLD_SATURATION ∧
          wrapInt (wrapInt (s.frame + 1) - p.lastFrameRan s) > FRAMES_BEFORE_START_ALLOWED) ∧
          p.armed (afterEdges s i) ≠ 0
      · exact ⟨h0, ha.2, ha.1.2.1, ha.1.2.2⟩
      · rw [if_neg ha] at hon
        exact absurd hon hne
  rw [afterEdges_sensor, afterEdges_frame, afterEdges_lastFrameRan]
  refine ⟨?_, ?_, ?_, ?_⟩
  · intro hon
    obtain ⟨k1, k2, k3, k4⟩ := key hon
    refine ⟨k1, ?_, k2, k3, k4⟩
    intro hflag
    rcases afterEdges_systemState_cases s i hflag with h | h
    · exact absurd h k1
    · exact h
  · intro hle hon
    have := (key hon).2.2.1
    simp only [THRESHOLD_SATURATION] at this
    omega
  · intro hle hon
    have := (key hon).2.2.2
    simp only [FRAMES_BEFORE_START_ALLOWED, FRAMES_BEFORE_SHUTOFF] at this
    omega
  · intro h0 hon
    exact (key hon).2.1 h0

/-- Witness of C13: pump one turns on in the tick that starts in `armedIdle` and
reads `dryOne`. -/
theorem activation_only_under_all_conditions_witness :
    (Pump.one.pin armedIdle = LOW ∧ Pump.one.pin (loop armedIdle dryOne) = HIGH) ∧
    (afterEdges armedIdle dryOne).systemState = 1 ∧
    Pump.one.armed (afterEdges armedIdle dryOne) ≠ 0 ∧
    Pump.one.sensorValue (afterEdges armedIdle dryOne) > THRESHOLD_SATURATION ∧
    wrapInt ((afterEdges armedIdle dryOne).frame -
      Pump.one.lastFrameRan (afterEdges armedIdle dryOne)) > FRAMES_BEFORE_START_ALLOWED :=
  ⟨by decide,
    ((activation_only_under_all_conditions Pump.one armedIdle dryOne (by decide)).1
      (by decide)).2.1 (by decide),
    ((activation_only_under_all_conditions Pump.one armedIdle dryOne (by decide)).1
      (by decide)).2.2⟩

/-- C14, pump independence: two executions that start with the same values of the
variables of pump X (as two executions from the initial state do when `setup()`
samples the system button and the button of pump X alike) and read the same
system-button, pump-X-button and sensor-X sequences, whatever the button and sensor
of the other pump do, have the same `systemState`, `frame`, `pumpXState`,
`pumpXPinState` and `pumpXLastFrameRan` at the end of every tick. -/
theorem pump_independence (p : Pump) (s t : State) (inp inp2 : Nat → Input) (n : Nat)
    (hs : p.view s = p.view t)
    (hin : ∀ k, 1 ≤ k → k ≤ n → p.reads (inp k) = p.reads (inp2 k)) :
    (exec s inp n).systemState = (exec t inp2 n).systemState ∧
    (exec s inp n).frame = (exec t inp2 n).frame ∧
    p.armed (exec s inp n) = p.armed (exec t inp2 n) ∧
    p.pin (exec s inp n) = p.pin (exec t inp2 n) ∧
    p.lastFrameRan (exec s inp n) = p.lastFrameRan (exec t inp2 n) := by
  have h := view_exec_congr p s t inp inp2 n hs hin
  simp only [Pump.view, Prod.mk.injEq] at h
  exact ⟨h.1, h.2.1, h.2.2.1, h.2.2.2.1, h.2.2.2.2.1⟩

/-- Witness of C14: pump one in the scenario and in the same scenario with the
pump-two button sampled `LOW` in `setup()`, held `LOW` throughout, and sensor two
reading 1023. -/
theorem pump_independence_witness :
    (Pump.one.view (setup HIGH HIGH HIGH) = Pump.one.view (setup HIGH HIGH LOW) ∧
      Pump.one.reads (scenarioInputs 3) =
        Pump.one.reads { scenarioInputs 3 with pumpTwoButton := LOW, sensorTwo := 1023 }) ∧
    Pump.one.pin (exec (setup HIGH HIGH HIGH) scenarioInputs 400) =
      Pump.one.pin (exec (setup HIGH HIGH LOW)
        (fun k => { scenarioInputs k with pumpTwoButton := LOW, sensorTwo := 1023 }) 400) :=
  ⟨⟨rfl, rfl⟩,
    (pump_independence Pump.one (setup HIGH HIGH HIGH) (setup HIGH HIGH LOW) scenarioInputs
      (fun k => { scenarioInputs k with pumpTwoButton := LOW, sensorTwo := 1023 }) 400 rfl
      (fun _ _ _ => rfl)).2.2.2.1⟩

/-- C15, pump symmetry: the tick function commutes with exchanging the two pumps;
for every state `s` and input `i`,
`loop (swapPumps s) (swapInputs i) = swapPumps (loop s i)`. -/
theorem pump_symmetry (s : State) (i : Input) :
    loop (swapPumps s) (swapInputs i) = swapPumps (loop s i) := by
  simp only [loop, afterEdges, readInputs_swapPumps, edgeDetect_swapPumps,
    pumpControl_swapPumps, restartFrame_swapPumps]

/-- C16, running-pump invariant: in every execution from the initial state, at the
end of every tick and for every pump X, `pumpXPinState == HIGH` implies
`0 <= frame - pumpXLastFrameRan <= FRAMES_BEFORE_SHUTOFF`; hence during the next tick
the difference is at most 201, the comparison with `FRAMES_BEFORE_START_ALLOWED`
fails and the activation branch of that pump is not taken. -/
theorem running_pump_invariant (p : Pump) (s : State) (i : Input) (hreach : Reachable s)
    (hpin : p.pin s = HIGH) :
    (0 ≤ s.frame - p.lastFrameRan s ∧
      s.frame - p.lastFrameRan s ≤ FRAMES_BEFORE_SHUTOFF) ∧
    (afterEdges s i).frame - p.lastFrameRan (afterEdges s i) ≤ 201 ∧
    ¬ (wrapInt ((afterEdges s i).frame - p.lastFrameRan (afterEdges s i)) >
      FRAMES_BEFORE_START_ALLOWED) ∧
    ¬ activationBranchFires p s i := by
  have hinv := inv_of_reachable hreach
  have hw := hinv.wrap_frame
  have hd := hinv.wrap_diff p
  obtain ⟨-, -, -, hp⟩ := hinv
  obtain ⟨-, -, hl1, hpi⟩ := hp p
  rw [activationBranchFires_iff, afterEdges_frame, afterEdges_lastFrameRan, hw, hd]
  simp only [FRAMES_BEFORE_SHUTOFF, FRAMES_BEFORE_START_ALLOWED, HIGH, LOW] at *
  have hle : s.frame - p.lastFrameRan s ≤ 200 := by omega
  refine ⟨⟨by omega, hle⟩, by omega, by omega, ?_⟩
  rintro ⟨-, ⟨-, -, hc⟩, -⟩
  omega

/-- Witness of C16: pump one at the end of tick 600 of the scenario. -/
theorem running_pump_invariant_witness :
    (Reachable (scenario 600) ∧ Pump.one.pin (scenario 600) = HIGH) ∧
    (0 ≤ (scenario 600).frame - Pump.one.lastFrameRan (scenario 600) ∧
      (scenario 600).frame - Pump.one.lastFrameRan (scenario 600) ≤ FRAMES_BEFORE_SHUTOFF) :=
  ⟨⟨reachable_scenario 600, (scenario_running 600 (by decide) (le_refl _)).2.2.2.1⟩,
    (running_pump_invariant Pump.one (scenario 600) dryOne (reachable_scenario 600)
      (scenario_running 600 (by decide) (le_refl _)).2.2.2.1).1⟩

/-- C17, activation only at counter values of at least 400: in every execution from
the initial state a pump goes from `LOW` to `HIGH` only on a tick whose `frame` value
is at least 400; every pump is `LOW` at the end of each of the first 399 ticks after
power-on, and no pump turns on during the 400 ticks that follow a counter wrap. -/
theorem activation_only_from_frame_400 (p : Pump) :
    (∀ (s : State) (i : Input), Reachable s → p.pin s = LOW → p.pin (loop s i) = HIGH →
      400 ≤ (afterEdges s i).frame) ∧
    (∀ (a b c : Int) (inp : Nat → Input) (k : Nat), k ≤ 399 →
      p.pin (exec (setup a b c) inp k) = LOW) ∧
    (∀ (s : State) (i : Input) (inp : Nat → Input) (k : Nat), Reachable s →
      (afterEdges s i).frame = RESTART_FRAME → k ≤ 400 →
      ¬ turnsOnAt p (loop s i) inp k) := by
  refine ⟨?_, ?_, ?_⟩
  · intro s i hreach hoff hon
    have hinv := inv_of_reachable hreach
    have hne : p.pin s ≠ HIGH := by rw [hoff]; decide
    obtain ⟨-, -, -, hcool, -, -⟩ := hinv.turn_on p i hne hon
    rw [afterEdges_frame, hinv.wrap_frame]
    obtain ⟨-, -, -, hp⟩ := hinv
    obtain ⟨-, hl0, -, -⟩ := hp p
    simp only [FRAMES_BEFORE_START_ALLOWED, FRAMES_BEFORE_SHUTOFF] at hcool
    omega
  · intro a b c inp k hk
    have hpin : p.pin (setup a b c) = LOW := by cases p <;> rfl
    have hlast : p.lastFrameRan (setup a b c) = -1 := by cases p <;> rfl
    have hframe : (setup a b c).frame = 0 := rfl
    exact (exec_wait (inv_setup a b c) p inp 399 hpin
      (by rw [hlast, hframe]; decide) (by rw [hframe]; decide) k hk).1
  · intro s i inp k hreach hwrap hk hturn
    obtain ⟨hk1, hoff, hon⟩ := hturn
    obtain ⟨m, rfl⟩ : ∃ m, k = m + 1 := ⟨k - 1, by omega⟩
    simp only [Nat.add_sub_cancel] at hoff
    have hinv := inv_loop (inv_of_reachable hreach) i
    have hf : (loop s i).frame = 0 := by rw [loop_frame, if_pos hwrap]
    have hl : p.lastFrameRan (loop s i) = 0 := by
      rw [afterEdges_frame] at hwrap
      rw [loop_lastFrameRan_eq, if_pos hwrap]
    have hgrow := exec_diff_le hinv p inp m
    rw [hf, hl] at hgrow
    have hne : p.pin (exec (loop s i) inp m) ≠ HIGH := by rw [hoff]; decide
    rw [exec_succ] at hon
    obtain ⟨-, -, -, hcool, -, -⟩ := (inv_exec hinv inp m).turn_on p _ hne hon
    simp only [FRAMES_BEFORE_START_ALLOWED, FRAMES_BEFORE_SHUTOFF] at hcool
    have hm : (m : Int) ≤ 399 := by omega
    omega

/-- Witness of C17: in the scenario pump one turns on on the tick with `frame` 400. -/
theorem activation_only_from_frame_400_witness :
    (Reachable (scenario 399) ∧ Pump.one.pin (scenario 399) = LOW ∧
      Pump.one.pin (loop (scenario 399) dryOne) = HIGH) ∧
    400 ≤ (afterEdges (scenario 399) dryOne).frame := by
  have h399 := (scenario_waiting 399 (by decide) (le_refl _)).2.2.2.1
  have h400 := scenario_400.2.2.2.1
  rw [scenario_succ 399 (by decide)] at h400
  exact ⟨⟨reachable_scenario 399, h399, h400⟩,
    (activation_only_from_frame_400 Pump.one).1 (scenario 399) dryOne
      (reachable_scenario 399) h399 h400⟩

/-- C18, worst-case run length: in every execution from the initial state no pump is
`HIGH` at the end of more than 401 consecutive loop iterations, and 401 is attained:
in the execution that reads `lateInputs` pump one is `LOW` at the end of iteration
31799, `HIGH` at the end of each of the 401 iterations 31800 to 32200 (it turns on
with `frame` 31800 and the wrap resets `pumpOneLastFrameRan` to 0 while it runs) and
`LOW` at the end of iteration 32201. -/
theorem worst_case_run_length :
    (∀ (a b c : Int) (inp : Nat → Input) (p : Pump) (i : Nat),
      ¬ (∀ k, i ≤ k → k ≤ i + 401 → p.pin (exec (setup a b c) inp k) = HIGH)) ∧
    (Pump.one.pin (late 31799) = LOW ∧
      (late 31800).frame = 31800 ∧
      (∀ k : Nat, 31800 ≤ k → k ≤ 32200 → Pump.one.pin (late k) = HIGH) ∧
      (∀ k : Nat, 31800 ≤ k → k ≤ 32200 → (late k).systemState = 1) ∧
      Pump.one.lastFrameRan (late 31999) = 31800 ∧
      Pump.one.lastFrameRan (late 32000) = 0 ∧
      Pump.one.pin (late 32201) = LOW) := by
  constructor
  · intro a b c inp p i hall
    apply exec_not_high_402 (inv_exec (inv_setup a b c) inp i) p (fun k => inp (i + k))
    intro k hk
    rw [← exec_add]
    exact hall (i + k) (by omega) (by omega)
  · have hwin : ∀ k : Nat, 31800 ≤ k → k ≤ 32200 →
        Pump.one.pin (late k) = HIGH ∧ (late k).systemState = 1 := by
      intro k h1 h2
      rcases Nat.lt_or_ge k 32000 with h | h
      · exact ⟨(late_before_wrap k h1 (by omega)).2.2.2.1,
          (late_before_wrap k h1 (by omega)).1⟩
      · obtain ⟨m, rfl⟩ : ∃ m, k = 32000 + m := ⟨k - 32000, by omega⟩
        exact ⟨(late_after_wrap m (by omega)).2.2.2.1, (late_after_wrap m (by omega)).1⟩
    exact ⟨(late_wet 31799 (by decide) (le_refl _)).2.2.2.1, late_31800.2.2.1,
      fun k h1 h2 => (hwin k h1 h2).1, fun k h1 h2 => (hwin k h1 h2).2,
      (late_before_wrap 31999 (by decide) (le_refl _)).2.2.2.2, late_32000.2.2.2.2,
      late_32201.2.2.2.1⟩

/-- Witness of C18: iterations 31900 and 32100 of the late execution. -/
theorem worst_case_run_length_witness :
    Pump.one.pin (late 31900) = HIGH ∧ Pump.one.pin (late 32100) = HIGH :=
  ⟨worst_case_run_length.2.2.2.1 31900 (by decide) (by decide),
    worst_case_run_length.2.2.2.1 32100 (by decide) (by decide)⟩

/-- C19, disable preserves arming and cooldown: for every state and input, on a tick
where `systemState` is 0 after the edge processing both activation frames are
unchanged by the tick, unless it is the wrap tick, which sets them to 0; an armed
flag changes only on a `HIGH` to `LOW` edge of its own button; so over any number of
ticks with the system off and no wrap the activation frames are unchanged.  The
timeout-shutoff statements leave the activation frames alone, and in every execution
from the initial state a tick on which the timeout branch of a pump is taken leaves
its activation frame unchanged unless it is the wrap tick. -/
theorem disable_preserves_arming_and_cooldown (s : State) (i : Input) :
    ((afterEdges s i).systemState = 0 →
      ((afterEdges s i).frame ≠ RESTART_FRAME →
        ∀ p : Pump, p.lastFrameRan (loop s i) = p.lastFrameRan s) ∧
      ((afterEdges s i).frame = RESTART_FRAME →
        ∀ p : Pump, p.lastFrameRan (loop s i) = 0)) ∧
    (∀ p : Pump, (p.armed (loop s i) ≠ p.armed s ↔
        (p.button.current s = HIGH ∧ p.button.read i = LOW)) ∧
      (¬ (p.button.current s = HIGH ∧ p.button.read i = LOW) →
        p.armed (loop s i) = p.armed s)) ∧
    (∀ (p : Pump) (inp : Nat → Input) (n : Nat),
      (∀ k, 1 ≤ k → k ≤ n → (exec s inp k).systemState = 0) →
      (∀ k, k < n → (afterEdges (exec s inp k) (inp (k + 1))).frame ≠ RESTART_FRAME) →
      p.lastFrameRan (exec s inp n) = p.lastFrameRan s) ∧
    ((shutoffOne (afterEdges s i)).pumpOneLastFrameRan =
        (afterEdges s i).pumpOneLastFrameRan ∧
      (shutoffTwo (shutoffOne (afterEdges s i))).pumpTwoLastFrameRan =
        (shutoffOne (afterEdges s i)).pumpTwoLastFrameRan) ∧
    (Reachable s → ∀ p : Pump, timeoutBranchFires p s i →
      (afterEdges s i).frame ≠ RESTART_FRAME →
      p.lastFrameRan (loop s i) = p.lastFrameRan s) := by
  refine ⟨?_, ?_, ?_, ?_, ?_⟩
  · intro h0
    rw [afterEdges_frame]
    constructor
    · intro hw p
      rw [loop_lastFrameRan_eq, if_neg hw, if_pos h0]
    · intro hw p
      rw [loop_lastFrameRan_eq, if_pos hw]
  · intro p
    have harm : p.armed (loop s i) =
        if p.button.current s = HIGH ∧ p.button.read i = LOW then lnot (p.armed s)
        else p.armed s := by rw [loop_armed, afterEdges_armed]
    refine ⟨⟨?_, ?_⟩, ?_⟩
    · intro h
      by_contra hc
      rw [harm, if_neg hc] at h
      exact h rfl
    · intro h
      rw [harm, if_pos h]
      exact lnot_ne _
    · intro h
      rw [harm, if_neg h]
  · intro p inp n hoff hnowrap
    exact exec_lastFrameRan_of_off p s inp n hoff hnowrap n (le_refl n)
  · constructor
    · simp only [shutoffOne_eq]
    · simp only [shutoffTwo_eq]
  · intro hreach p hfire hw
    have hinv := inv_of_reachable hreach
    rw [timeoutBranchFires_iff, hinv.wrap_frame, hinv.wrap_diff] at hfire
    obtain ⟨hsys, hpin, hd⟩ := hfire
    rw [afterEdges_frame, hinv.wrap_frame] at hw
    rw [hinv.loop_lastFrameRan p i, if_neg hw, if_neg hsys]
    obtain ⟨-, -, -, hp⟩ := hinv
    obtain ⟨-, -, -, hpi⟩ := hp p
    have hact : ¬ (((if p.pin s = HIGH ∧
        s.frame + 1 - p.lastFrameRan s > FRAMES_BEFORE_SHUTOFF then LOW else p.pin s) ≠ HIGH ∧
        p.sensor i > THRESHOLD_SATURATION ∧
        s.frame + 1 - p.lastFrameRan s > FRAMES_BEFORE_START_ALLOWED) ∧
        p.armed (afterEdges s i) ≠ 0) := by
      rintro ⟨⟨-, -, hc⟩, -⟩
      simp only [FRAMES_BEFORE_SHUTOFF, FRAMES_BEFORE_START_ALLOWED, HIGH, LOW] at *
      omega
    rw [if_neg hact]

/-- Witness of C19: the system button is pressed in `armedIdle`, which switches the
system off on a tick that is not the wrap tick. -/
theorem disable_preserves_arming_and_cooldown_witness :
    ((afterEdges armedIdle pressSystem).systemState = 0 ∧
      (afterEdges armedIdle pressSystem).frame ≠ RESTART_FRAME) ∧
    Pump.one.lastFrameRan (loop armedIdle pressSystem) = Pump.one.lastFrameRan armedIdle :=
  ⟨by decide,
    ((disable_preserves_arming_and_cooldown armedIdle pressSystem).1 (by decide)).1
      (by decide) Pump.one⟩

end Irrigator
